import Mathlib

/-!
Shallow embedding of the computational core of the `somepgs/steamprops`
repository (IAPWS IF-97 water/steam properties, written in Go), together with
theorems settling the frozen claims C1..C10.

Modelling conventions:
* Go `float64` arithmetic is modelled by exact real arithmetic over `ℝ`.
  Every real number is finite, so the source's `IsNaN`/`IsInf` guards are
  vacuously false and are omitted (each omission is noted at the definition).
* A Go function returning `(value, error)` is modelled as `Option`:
  `none` is an error return, `some v` a successful one.
* The coefficient CSV files are embedded resources of the repository and are
  not part of the source tree given here; every definition is therefore
  parameterised by its coefficient table.  Where a claim depends on the
  actual numbers (the Region 4 saturation constants), those constants are
  modelled from the spec, which prescribes the official IF-97 values.
* Table exponents `I`, `J` are parsed from the CSVs; the files hold integers
  (the spec: "integer or half-integer exponents"), and Go's `math.Pow` on an
  integer exponent agrees with `zpow` for nonzero bases, so exponents are
  modelled as `ℤ` and powers as `zpow`.
-/

namespace SteamProps

/-- Properties is the output record of the core: eight scalar thermodynamic
properties, mirroring `calc_core.Properties`. -/
structure Properties where
  SpecificVolume : ℝ
  Density : ℝ
  SpecificInternalEnergy : ℝ
  SpecificEntropy : ℝ
  SpecificEnthalpy : ℝ
  SpecificIsochoricHeatCapacity : ℝ
  SpecificIsobaricHeatCapacity : ℝ
  SpeedOfSound : ℝ

/-- Region mirrors the `calc_core.Region` enumeration of IF-97 regions. -/
inductive Region where
  | RegionAuto : Region
  | Region1 : Region
  | Region2 : Region
  | Region3 : Region
  | Region4 : Region
  | Region5 : Region
deriving DecidableEq, Repr

/-- SatCoeffs holds the ten Region 4 saturation coefficients `n[1..10]`
loaded by `region4.loadOnce` from `iapws-if97-region4.csv`. -/
structure SatCoeffs where
  n1 : ℝ
  n2 : ℝ
  n3 : ℝ
  n4 : ℝ
  n5 : ℝ
  n6 : ℝ
  n7 : ℝ
  n8 : ℝ
  n9 : ℝ
  n10 : ℝ

/-- satTheta is the quantity `theta := T + n9/(T - n10)` of
`region4.SaturationPressure`. -/
noncomputable def satTheta (c : SatCoeffs) (T : ℝ) : ℝ :=
  T + c.n9 / (T - c.n10)

/-- satA is `A := theta^2 + n1*theta + n2` of `region4.SaturationPressure`. -/
noncomputable def satA (c : SatCoeffs) (θ : ℝ) : ℝ :=
  θ * θ + c.n1 * θ + c.n2

/-- satB is `B := n3*theta^2 + n4*theta + n5` of
`region4.SaturationPressure`. -/
noncomputable def satB (c : SatCoeffs) (θ : ℝ) : ℝ :=
  c.n3 * θ * θ + c.n4 * θ + c.n5

/-- satC is `C := n6*theta^2 + n7*theta + n8` of
`region4.SaturationPressure`. -/
noncomputable def satC (c : SatCoeffs) (θ : ℝ) : ℝ :=
  c.n6 * θ * θ + c.n7 * θ + c.n8

/-- satDisc is the discriminant `disc := B*B - 4*A*C` computed by
`region4.SaturationPressure` at temperature `T`. -/
noncomputable def satDisc (c : SatCoeffs) (T : ℝ) : ℝ :=
  satB c (satTheta c T) * satB c (satTheta c T) -
    4 * satA c (satTheta c T) * satC c (satTheta c T)

/-- satX is the intermediate `x := 2*C / (-B + sqrt(disc))` of
`region4.SaturationPressure`. -/
noncomputable def satX (c : SatCoeffs) (T : ℝ) : ℝ :=
  2 * satC c (satTheta c T) / (-satB c (satTheta c T) + Real.sqrt (satDisc c T))

/-- SaturationPressure mirrors `region4.SaturationPressure` (T in K, result
in Pa): error on `T <= 0`, error on a negative discriminant, otherwise
`p := 1e6 * x^4` with `x := 2*C / (-B + sqrt(disc))`. -/
noncomputable def SaturationPressure (c : SatCoeffs) (T : ℝ) : Option ℝ :=
  if T ≤ 0 then none
  else if satDisc c T < 0 then none
  else some (1e6 * satX c T ^ (4 : ℕ))

/-- satTBeta is `beta := (p/1e6)^0.25` of `region4.SaturationTemperature`
(Go `math.Pow`, modelled by `Real.rpow`). -/
noncomputable def satTBeta (p : ℝ) : ℝ :=
  (p / 1e6) ^ (0.25 : ℝ)

/-- satTE is `E := beta^2 + n3*beta + n6` of
`region4.SaturationTemperature`. -/
noncomputable def satTE (c : SatCoeffs) (β : ℝ) : ℝ :=
  β * β + c.n3 * β + c.n6

/-- satTF is `F := n1*beta^2 + n4*beta + n7` of
`region4.SaturationTemperature`. -/
noncomputable def satTF (c : SatCoeffs) (β : ℝ) : ℝ :=
  c.n1 * β * β + c.n4 * β + c.n7

/-- satTG is `G := n2*beta^2 + n5*beta + n8` of
`region4.SaturationTemperature`. -/
noncomputable def satTG (c : SatCoeffs) (β : ℝ) : ℝ :=
  c.n2 * β * β + c.n5 * β + c.n8

/-- satTDisc is the discriminant `F*F - 4*E*G` computed by
`region4.SaturationTemperature` at pressure `p`. -/
noncomputable def satTDisc (c : SatCoeffs) (p : ℝ) : ℝ :=
  satTF c (satTBeta p) * satTF c (satTBeta p) -
    4 * satTE c (satTBeta p) * satTG c (satTBeta p)

/-- satTD is `D := 2*G/(-F - sqrt(disc))` of
`region4.SaturationTemperature`. -/
noncomputable def satTD (c : SatCoeffs) (p : ℝ) : ℝ :=
  2 * satTG c (satTBeta p) / (-satTF c (satTBeta p) - Real.sqrt (satTDisc c p))

/-- satTInner is `inner := (n10 + D)^2 - 4*(n9 + n10*D)` of
`region4.SaturationTemperature`. -/
noncomputable def satTInner (c : SatCoeffs) (p : ℝ) : ℝ :=
  (c.n10 + satTD c p) * (c.n10 + satTD c p) - 4 * (c.n9 + c.n10 * satTD c p)

/-- SaturationTemperature mirrors `region4.SaturationTemperature` (p in Pa,
result in K): error on `p <= 0`, on a negative discriminant, or on a
negative inner discriminant; otherwise `0.5*(n10 + D - sqrt(inner))`
(the negative root). -/
noncomputable def SaturationTemperature (c : SatCoeffs) (p : ℝ) : Option ℝ :=
  if p ≤ 0 then none
  else if satTDisc c p < 0 then none
  else if satTInner c p < 0 then none
  else some (0.5 * (c.n10 + satTD c p - Real.sqrt (satTInner c p)))

/-- B23T mirrors `bounds.B23T`: the quadratic `T = n1 + n2*p + n3*p^2` with
`p` in MPa.  After a successful table load the Go function can no longer
fail, so the embedded version always returns `some`; it keeps the `Option`
result type because `RegionFromTP` pattern-matches on the error. -/
def B23T (b1 b2 b3 : ℝ) (pMPa : ℝ) : Option ℝ :=
  some (b1 + b2 * pMPa + b3 * pMPa * pMPa)

/-- RegionFromTP mirrors `calc_core.RegionFromTP` (T in K, p in Pa): R5 for
`T > 1073.15`; below `647.096` the saturation line splits R1 from R2 when
`SaturationPressure` succeeds; otherwise the B23 boundary splits R2 from R3;
the final fallback compares `p` with 16.5292 MPa. -/
noncomputable def RegionFromTP (c : SatCoeffs) (b1 b2 b3 : ℝ) (T p : ℝ) : Region :=
  if 1073.15 < T then Region.Region5
  else
    let b23Branch : Region :=
      match B23T b1 b2 b3 (p / 1e6) with
      | some t23 => if t23 ≤ T then Region.Region2 else Region.Region3
      | none => if 16.5292e6 ≤ p then Region.Region3 else Region.Region2
    if T < 647.096 then
      match SaturationPressure c T with
      | some psat => if psat ≤ p then Region.Region1 else Region.Region2
      | none => b23Branch
    else b23Branch

/-- specClassifyTP restates the classifier exactly as claim C1 words it:
"if T > 1073.15 K it returns R5; else if T < 647.096 K and the saturation
pressure computation succeeds, it returns R1 when p >= p_sat(T) and R2 when
p < p_sat(T); else if the B23 boundary temperature computation succeeds, it
returns R2 when T >= T_B23(p) and R3 when T < T_B23(p); else (fallback) it
returns R3 when p >= 16.5292 MPa and R2 otherwise". -/
noncomputable def specClassifyTP (c : SatCoeffs) (b1 b2 b3 : ℝ) (T p : ℝ) : Region :=
  if 1073.15 < T then Region.Region5
  else
    match (if T < 647.096 then SaturationPressure c T else none) with
    | some psat => if psat ≤ p then Region.Region1 else Region.Region2
    | none =>
      match B23T b1 b2 b3 (p / 1e6) with
      | some t23 => if t23 ≤ T then Region.Region2 else Region.Region3
      | none => if 16.5292e6 ≤ p then Region.Region3 else Region.Region2

/-- satPFormula is the closed form of spec §4.2 for the saturation pressure,
`p = 10^6 * (2C / (-B + sqrt(B^2 - 4AC)))^4` Pa, written from the spec's
formula (θ, A, B, C as in §4.2). -/
noncomputable def satPFormula (c : SatCoeffs) (T : ℝ) : ℝ :=
  1e6 * (2 * satC c (satTheta c T) /
    (-satB c (satTheta c T) + Real.sqrt (satDisc c T))) ^ (4 : ℕ)

/-- Witness coefficients for C5: `theta(2) = 2`, `A = 1`, `B = 0`, `C = -1`,
so the discriminant is `4` and the formula gives `1e6 * (-1)^4 = 1e6`. -/
def c5Coeffs : SatCoeffs :=
  ⟨0, -3, 0, 0, 0, 0, 0, -1, 0, 0⟩

/-- if97Region4 holds the ten saturation coefficients.
Modelled from the spec: the embedded resource `iapws-if97-region4.csv` is not
part of the source tree; spec §4.2 prescribes the IF-97 Region 4 saturation
formulation, whose official coefficients `n1..n10` these are. -/
noncomputable def if97Region4 : SatCoeffs :=
  ⟨1167.0521452767, -724213.16703206, -17.073846940092, 12020.82470247,
   -3232555.0322333, 14.91510861353, -4823.2657361591, 405113.40542057,
   -0.23855557567849, 650.17534844798⟩

/-- IJN is one row of a residual coefficient table: exponents `I`, `J` and
coefficient `N` (`tableData`/`residualRow`/`term` in the source). -/
structure IJN where
  I : ℤ
  J : ℤ
  N : ℝ

/-- JN is one row of an ideal-gas coefficient table: exponent `J` and
coefficient `N` (`idealRow` in the source). -/
structure JN where
  J : ℤ
  N : ℝ

/-- r1pi is Region 1's reduced pressure `pi := (p/1e6)/16.53`. -/
noncomputable def r1pi (p : ℝ) : ℝ := p / 1000000 / 16.53

/-- r1tau is Region 1's inverse reduced temperature `tau := 1386/T` with
`T = tCelsius + 273.15`. -/
noncomputable def r1tau (tC : ℝ) : ℝ := 1386 / (tC + 273.15)

/-- g1 is the Region 1 dimensionless Gibbs sum
`Σ N_i (7.1-pi)^I_i (tau-1.222)^J_i` (first loop of `region1.Calculate`). -/
noncomputable def g1 (rows : List IJN) (pi tau : ℝ) : ℝ :=
  (rows.map fun r => r.N * (7.1 - pi) ^ r.I * (tau - 1.222) ^ r.J).sum

/-- g1Pi is the `gPi` loop of `region1.Calculate`: term-wise pi-derivative,
with the minus sign from the `(7.1 - pi)` substitution. -/
noncomputable def g1Pi (rows : List IJN) (pi tau : ℝ) : ℝ :=
  (rows.map fun r =>
    -r.N * (r.I : ℝ) * (7.1 - pi) ^ (r.I - 1) * (tau - 1.222) ^ r.J).sum

/-- g1PiPi is the `gPiPi` loop of `region1.Calculate`. -/
noncomputable def g1PiPi (rows : List IJN) (pi tau : ℝ) : ℝ :=
  (rows.map fun r =>
    r.N * (r.I : ℝ) * ((r.I : ℝ) - 1) * (7.1 - pi) ^ (r.I - 2) * (tau - 1.222) ^ r.J).sum

/-- g1Tau is the `gTau` loop of `region1.Calculate`. -/
noncomputable def g1Tau (rows : List IJN) (pi tau : ℝ) : ℝ :=
  (rows.map fun r =>
    r.N * (r.J : ℝ) * (7.1 - pi) ^ r.I * (tau - 1.222) ^ (r.J - 1)).sum

/-- g1TauTau is the `gTauTau` loop of `region1.Calculate`. -/
noncomputable def g1TauTau (rows : List IJN) (pi tau : ℝ) : ℝ :=
  (rows.map fun r =>
    r.N * (r.J : ℝ) * ((r.J : ℝ) - 1) * (7.1 - pi) ^ r.I * (tau - 1.222) ^ (r.J - 2)).sum

/-- g1PiTau is the `gPiTau` loop of `region1.Calculate`. -/
noncomputable def g1PiTau (rows : List IJN) (pi tau : ℝ) : ℝ :=
  (rows.map fun r =>
    -r.N * (r.I : ℝ) * (r.J : ℝ) * (7.1 - pi) ^ (r.I - 1) * (tau - 1.222) ^ (r.J - 1)).sum

/-- region1Core is the computation part of `region1.Calculate` after its
applicability guards: property assembly from the Gibbs derivatives, the
small-denominator check for the speed of sound, and the final sanity
checks.  The source's `finiteAll` check is vacuous over `ℝ` and omitted. -/
noncomputable def region1Core (rows : List IJN) (tC p : ℝ) : Option Properties :=
  let T := tC + 273.15
  let pi := r1pi p
  let tau := r1tau tC
  let g := g1 rows pi tau
  let gPi := g1Pi rows pi tau
  let gPiPi := g1PiPi rows pi tau
  let gTau := g1Tau rows pi tau
  let gTauTau := g1TauTau rows pi tau
  let gPiTau := g1PiTau rows pi tau
  let R := (0.461526 : ℝ)
  let pKPa := p / 1000
  let v := pi * gPi * (R * T / pKPa)
  let ro := pKPa / (R * T * (pi * gPi))
  let u := R * T * (tau * gTau - pi * gPi)
  let s := R * (tau * gTau - g)
  let h := R * T * tau * gTau
  let cv := R * (-(tau * tau) * gTauTau + (gPi - tau * gPiTau) ^ 2 / gPiPi)
  let cp := R * (-(tau * tau) * gTauTau + (gPi - tau * gPiTau) ^ 2 / gPiPi)
  let denom := gPiPi - (gPi - tau * gPiTau) ^ 2 / (tau * tau * gTauTau)
  if |denom| < 1e-10 then none
  else
    let w := Real.sqrt (R * 1000 * T * (gPi * gPi / |denom|))
    if ro ≤ 0 ∨ v ≤ 0 ∨ w ≤ 0 then none
    else if cp ≤ 0 ∨ cv ≤ 0 then none
    else some ⟨v, ro, u, s, h, cv, cp, w⟩

/-- region1Calculate mirrors `region1.Calculate` (tC in Celsius, p in Pa):
input guards, the simplified Region 1 applicability checks (T <= 623.15 K,
p <= 100 MPa, p >= psat(T) when the saturation computation succeeds), then
`region1Core`. -/
noncomputable def region1Calculate (rows : List IJN) (c4 : SatCoeffs)
    (tC p : ℝ) : Option Properties :=
  if tC < -273.15 then none
  else if p ≤ 0 then none
  else if 623.15 < tC + 273.15 then none
  else if 100e6 < p then none
  else if tC + 273.15 < 647.096 then
    match SaturationPressure c4 (tC + 273.15) with
    | some ps => if p < ps then none else region1Core rows tC p
    | none => region1Core rows tC p
  else region1Core rows tC p

/-- idealSum is the ideal-gas Gibbs sum `Σ N τ^J` accumulated by the ideal
loop of `region2.Calculate` and `region5.Calculate`. -/
noncomputable def idealSum (rows : List JN) (tau : ℝ) : ℝ :=
  (rows.map fun r => r.N * tau ^ r.J).sum

/-- idealTau is the `g0Tau` accumulation of the ideal loop. -/
noncomputable def idealTau (rows : List JN) (tau : ℝ) : ℝ :=
  (rows.map fun r => r.N * (r.J : ℝ) * tau ^ (r.J - 1)).sum

/-- idealTauTau is the `g0TauTau` accumulation of the ideal loop. -/
noncomputable def idealTauTau (rows : List JN) (tau : ℝ) : ℝ :=
  (rows.map fun r => r.N * (r.J : ℝ) * ((r.J : ℝ) - 1) * tau ^ (r.J - 2)).sum

/-- resSum is the residual Gibbs sum `Σ N π^I (τ-sh)^J`; `sh` is `0.5` for
Region 2 and `1.0` for Region 5. -/
noncomputable def resSum (rows : List IJN) (sh pi tau : ℝ) : ℝ :=
  (rows.map fun r => r.N * pi ^ r.I * (tau - sh) ^ r.J).sum

/-- resPi is the `grPi` accumulation of the residual loop. -/
noncomputable def resPi (rows : List IJN) (sh pi tau : ℝ) : ℝ :=
  (rows.map fun r => r.N * (r.I : ℝ) * pi ^ (r.I - 1) * (tau - sh) ^ r.J).sum

/-- resPiPi is the `grPiPi` accumulation of the residual loop. -/
noncomputable def resPiPi (rows : List IJN) (sh pi tau : ℝ) : ℝ :=
  (rows.map fun r =>
    r.N * (r.I : ℝ) * ((r.I : ℝ) - 1) * pi ^ (r.I - 2) * (tau - sh) ^ r.J).sum

/-- resTau is the `grTau` accumulation of the residual loop. -/
noncomputable def resTau (rows : List IJN) (sh pi tau : ℝ) : ℝ :=
  (rows.map fun r => r.N * (r.J : ℝ) * pi ^ r.I * (tau - sh) ^ (r.J - 1)).sum

/-- resTauTau is the `grTauTau` accumulation of the residual loop. -/
noncomputable def resTauTau (rows : List IJN) (sh pi tau : ℝ) : ℝ :=
  (rows.map fun r =>
    r.N * (r.J : ℝ) * ((r.J : ℝ) - 1) * pi ^ r.I * (tau - sh) ^ (r.J - 2)).sum

/-- resPiTau is the `grPiTau` accumulation of the residual loop. -/
noncomputable def resPiTau (rows : List IJN) (sh pi tau : ℝ) : ℝ :=
  (rows.map fun r =>
    r.N * (r.I : ℝ) * (r.J : ℝ) * pi ^ (r.I - 1) * (tau - sh) ^ (r.J - 1)).sum

/-- region2Core is the computation part of `region2.Calculate`: ideal plus
residual Gibbs derivatives (`referP = 1` MPa, `referT = 540` K, τ-shift
`0.5`), property assembly and the final sanity checks.  `finiteAll` is
vacuous over `ℝ` and omitted. -/
noncomputable def region2Core (ideal : List JN) (resid : List IJN)
    (tC p : ℝ) : Option Properties :=
  let T := tC + 273.15
  let pi := p / 1000000 / 1
  let tau := 540 / T
  let g0 := Real.log pi + idealSum ideal tau
  let g0Tau := idealTau ideal tau
  let g0TauTau := idealTauTau ideal tau
  let g0Pi := 1 / pi
  let g0PiPi := -1 / (pi * pi)
  let gr := resSum resid 0.5 pi tau
  let gPi := g0Pi + resPi resid 0.5 pi tau
  let gPiPi := g0PiPi + resPiPi resid 0.5 pi tau
  let gTau := g0Tau + resTau resid 0.5 pi tau
  let gTauTau := g0TauTau + resTauTau resid 0.5 pi tau
  let gPiTau := resPiTau resid 0.5 pi tau
  let g := g0 + gr
  let R := (0.461526 : ℝ)
  let pKPa := p / 1000
  let v := pi * gPi * (R * T / pKPa)
  let ro := pKPa / (R * T * (pi * gPi))
  let u := R * T * (tau * gTau - pi * gPi)
  let s := R * (tau * gTau - g)
  let h := R * T * tau * gTau
  let cv := R * (-(tau * tau) * gTauTau + (gPi - tau * gPiTau) ^ 2 / gPiPi)
  let cp := R * (-(tau * tau) * gTauTau + (gPi - tau * gPiTau) * (gPi - tau * gPiTau) / gPiPi)
  let w := Real.sqrt (R * 1000 * T *
    (gPi * gPi / ((gPi - tau * gPiTau) ^ 2 / (tau * tau * gTauTau) - gPiPi)))
  if ro ≤ 0 ∨ v ≤ 0 ∨ w ≤ 0 then none
  else if cp ≤ 0 ∨ cv ≤ 0 then none
  else some ⟨v, ro, u, s, h, cv, cp, w⟩

/-- region2Calculate mirrors `region2.Calculate`: input guards, simplified
Region 2 applicability (273.15 K <= T <= 1073.15 K, p <= 100 MPa,
p <= psat(T) when the saturation computation succeeds), then
`region2Core`. -/
noncomputable def region2Calculate (ideal : List JN) (resid : List IJN)
    (c4 : SatCoeffs) (tC p : ℝ) : Option Properties :=
  if tC < -273.15 then none
  else if p ≤ 0 then none
  else if tC + 273.15 < 273.15 then none
  else if 1073.15 < tC + 273.15 then none
  else if 100e6 < p then none
  else if tC + 273.15 < 647.096 then
    match SaturationPressure c4 (tC + 273.15) with
    | some ps => if ps < p then none else region2Core ideal resid tC p
    | none => region2Core ideal resid tC p
  else region2Core ideal resid tC p

/-- region5Calculate mirrors `region5.Calculate`: input guards, Region 5
applicability (1073.15 K <= T <= 2273.15 K, p <= 50 MPa), then the combined
ideal (`referT = 1000` K) and residual (τ-shift `1.0`) Gibbs computation.
The source performs no sanity validation on the result record. -/
noncomputable def region5Calculate (ideal : List JN) (resid : List IJN)
    (tC p : ℝ) : Option Properties :=
  if tC < -273.15 then none
  else if p ≤ 0 then none
  else if tC + 273.15 < 1073.15 ∨ 2273.15 < tC + 273.15 then none
  else if 50e6 < p then none
  else
    let T := tC + 273.15
    let pi := p / 1000000 / 1
    let tau := 1000 / T
    let g0 := Real.log pi + idealSum ideal tau
    let g0Tau := idealTau ideal tau
    let g0TauTau := idealTauTau ideal tau
    let g0Pi := 1 / pi
    let g0PiPi := -1 / (pi * pi)
    let gr := resSum resid 1.0 pi tau
    let gPi := g0Pi + resPi resid 1.0 pi tau
    let gPiPi := g0PiPi + resPiPi resid 1.0 pi tau
    let gTau := g0Tau + resTau resid 1.0 pi tau
    let gTauTau := g0TauTau + resTauTau resid 1.0 pi tau
    let gPiTau := resPiTau resid 1.0 pi tau
    let g := g0 + gr
    let R := (0.461526 : ℝ)
    let pKPa := p / 1000
    let v := pi * gPi * (R * T / pKPa)
    let ro := pKPa / (R * T * (pi * gPi))
    let u := R * T * (tau * gTau - pi * gPi)
    let s := R * (tau * gTau - g)
    let h := R * T * tau * gTau
    let cv := R * (-(tau * tau) * gTauTau + (gPi - tau * gPiTau) ^ 2 / gPiPi)
    let cp := R * (-(tau * tau) * gTauTau +
      (gPi - tau * gPiTau) * (gPi - tau * gPiTau) / gPiPi)
    let w := Real.sqrt (R * 1000 * T *
      (gPi * gPi / ((gPi - tau * gPiTau) ^ 2 / (tau * tau * gTauTau) - gPiPi)))
    some ⟨v, ro, u, s, h, cv, cp, w⟩

/-- coreInvariants is the conjunction of spec §3 output invariants checked
by the claims: positivity of v, ρ, c_v, c_p, w, the exact identity
`ρ·v = 1`, and the exact identity `h - u - p·v/1000 = 0`. -/
def coreInvariants (p : ℝ) (pr : Properties) : Prop :=
  0 < pr.SpecificVolume ∧ 0 < pr.Density ∧
    0 < pr.SpecificIsochoricHeatCapacity ∧ 0 < pr.SpecificIsobaricHeatCapacity ∧
    0 < pr.SpeedOfSound ∧ pr.Density * pr.SpecificVolume = 1 ∧
    pr.SpecificEnthalpy - pr.SpecificInternalEnergy - p * pr.SpecificVolume / 1000 = 0

/-- vOf reads the specific-volume field out of an optional result. -/
noncomputable def vOf (o : Option Properties) : ℝ :=
  (o.map Properties.SpecificVolume).getD 1

/-- roOf reads the density field out of an optional result. -/
noncomputable def roOf (o : Option Properties) : ℝ :=
  (o.map Properties.Density).getD 1

/-- cpOf reads the isobaric heat-capacity field out of an optional result. -/
noncomputable def cpOf (o : Option Properties) : ℝ :=
  (o.map Properties.SpecificIsobaricHeatCapacity).getD 1

/-- cvOf reads the isochoric heat-capacity field out of an optional result. -/
noncomputable def cvOf (o : Option Properties) : ℝ :=
  (o.map Properties.SpecificIsochoricHeatCapacity).getD 1

/-- wOf reads the speed-of-sound field out of an optional result. -/
noncomputable def wOf (o : Option Properties) : ℝ :=
  (o.map Properties.SpeedOfSound).getD 1

/-- psatFail is a Region 4 coefficient table whose saturation discriminant
is negative at every temperature (`A = θ²+1`, `B = 0`, `C = 1`), so
`SaturationPressure` always errors and the saturation guards of the region
calculators are skipped. -/
def psatFail : SatCoeffs := ⟨0, 1, 0, 0, 0, 0, 0, 1, 0, 0⟩

/-- ex1Rows is a two-term Region 1 coefficient table
(`g = -(τ-1.222)² - (7.1-π)²`) on which `region1.Calculate` succeeds at
`tC = 73.35` °C, `p = 99.18` MPa (so `π = 6`, `τ = 4`). -/
def ex1Rows : List IJN := [⟨0, 2, -1⟩, ⟨2, 0, -1⟩]

/-- ex2Rows is a two-term Region 1 coefficient table
(`g = -(τ-1.222)² + (7.1-π)⁻¹`) whose code speed-of-sound denominator is
positive, making the absolute value flip the sign of the claimed signed
denominator. -/
def ex2Rows : List IJN := [⟨0, 2, -1⟩, ⟨-1, 0, 1⟩]

/-- scanStep is the 50-point scan loop of `region3.bracketAndBisect`,
instrumented with a count of `f`-evaluations: it walks `x_k = a + (k/n)(b-a)`
for `k = 1..n` looking for the first sign change `prevF*fx <= 0`; the outer
`Option` is an `f`-error, the inner `Option` is "no sign change found", and
a found bracket carries `(prevX, x, prevF, fx)`. -/
noncomputable def scanStep (f : ℝ → Option ℝ) (a b : ℝ) (n : ℕ) :
    ℕ → ℕ → ℝ → ℝ → Option (Option (ℝ × ℝ × ℝ × ℝ)) × ℕ
  | 0, _, _, _ => (some none, 0)
  | left + 1, k, prevX, prevF =>
    let x := a + (k : ℝ) / (n : ℝ) * (b - a)
    match f x with
    | none => (none, 1)
    | some fx =>
      if prevF * fx ≤ 0 then (some (some (prevX, x, prevF, fx)), 1)
      else
        let r := scanStep f a b n left (k + 1) x fx
        (r.1, r.2 + 1)

/-- bisectStep is the bisection loop of `region3.bracketAndBisect` with a
count of `f`-evaluations: at most `it` iterations, each evaluating `f` at
the midpoint and stopping when `|fm| < tol` or `|b-a| < tol`. -/
noncomputable def bisectStep (f : ℝ → Option ℝ) (tol : ℝ) :
    ℕ → ℝ → ℝ → ℝ → ℝ → Option ℝ × ℕ
  | 0, _, _, _, _ => (none, 0)
  | it + 1, a, b, fa, fb =>
    let m := (a + b) / 2
    match f m with
    | none => (none, 1)
    | some fm =>
      if |fm| < tol ∨ |b - a| < tol then (some m, 1)
      else if fa * fm ≤ 0 then
        let r := bisectStep f tol it a m fa fm
        (r.1, r.2 + 1)
      else
        let r := bisectStep f tol it m b fm fb
        (r.1, r.2 + 1)

/-- bracketAndBisectC mirrors `region3.bracketAndBisect` and additionally
returns the number of `f`-evaluations performed: endpoint evaluations,
exact-zero early returns, the 50-point scan when the endpoint values have
the same sign, then bisection.  The source's NaN/Inf check on the endpoint
values is vacuous over `ℝ` and omitted. -/
noncomputable def bracketAndBisectC (f : ℝ → Option ℝ) (a b : ℝ)
    (maxIter : ℕ) (tol : ℝ) : Option ℝ × ℕ :=
  match f a with
  | none => (none, 1)
  | some fa =>
    match f b with
    | none => (none, 2)
    | some fb =>
      if fa = 0 then (some a, 2)
      else if fb = 0 then (some b, 2)
      else if 0 < fa * fb then
        match scanStep f a b 50 50 1 a fa with
        | (none, c) => (none, 2 + c)
        | (some none, c) => (none, 2 + c)
        | (some (some (a2, b2, fa2, fb2)), c) =>
          let r := bisectStep f tol maxIter a2 b2 fa2 fb2
          (r.1, 2 + c + r.2)
      else
        let r := bisectStep f tol maxIter a b fa fb
        (r.1, 2 + r.2)

/-- bracketAndBisect is the result component of `bracketAndBisectC` — the
direct embedding of `region3.bracketAndBisect`. -/
noncomputable def bracketAndBisect (f : ℝ → Option ℝ) (a b : ℝ)
    (maxIter : ℕ) (tol : ℝ) : Option ℝ :=
  (bracketAndBisectC f a b maxIter tol).1

/-- Sub3 mirrors the `sub3` enumeration of Region 3 sub-regions 3a/3b. -/
inductive Sub3 where
  | a : Sub3
  | b : Sub3
deriving DecidableEq, Repr

/-- evalSeries mirrors `region3.evalSeries`: `Σ N·x^I·y^J` over a term
table. -/
noncomputable def evalSeries (terms : List IJN) (x y : ℝ) : ℝ :=
  (terms.map fun t => t.N * x ^ t.I * y ^ t.J).sum

/-- PHTables bundles the four Region 3 backward (p,h) tables
(`T3aPH`, `V3aPH`, `T3bPH`, `V3bPH`). -/
structure PHTables where
  T3a : List IJN
  V3a : List IJN
  T3b : List IJN
  V3b : List IJN

/-- PSTables bundles the four Region 3 backward (p,s) tables
(`T3aPS`, `V3aPS`, `T3bPS`, `V3bPS`). -/
structure PSTables where
  T3a : List IJN
  V3a : List IJN
  T3b : List IJN
  V3b : List IJN

/-- Tph mirrors `region3.Tph` (p in Pa, h in kJ/kg, result K).  The Go
function can only fail on table load or an invalid enum value, neither of
which exists in the model, so it is total.  Normalisers per the `const`
block: `T* = 760/860` K, `p* = 100` MPa, `h* = 2300/2800` kJ/kg, π-shifts
`0.240/0.298`, η-shifts `-0.615` and `-0.720`. -/
noncomputable def Tph (t : PHTables) : Sub3 → ℝ → ℝ → ℝ
  | Sub3.a, pPa, h => 760.0 * evalSeries t.T3a (pPa / 1e6 / 100.0 + 0.240) (h / 2300.0 + (-0.615))
  | Sub3.b, pPa, h => 860.0 * evalSeries t.T3b (pPa / 1e6 / 100.0 + 0.298) (h / 2800.0 + (-0.720))

/-- Vph mirrors `region3.Vph` (`v* = 0.0028/0.0088` m³/kg, `h* = 2100/2800`,
π-shifts `0.128` and `0.0661`, η-shifts `-0.727` and `-0.720`). -/
noncomputable def Vph (t : PHTables) : Sub3 → ℝ → ℝ → ℝ
  | Sub3.a, pPa, h => 0.0028 * evalSeries t.V3a (pPa / 1e6 / 100.0 + 0.128) (h / 2100.0 + (-0.727))
  | Sub3.b, pPa, h => 0.0088 * evalSeries t.V3b (pPa / 1e6 / 100.0 + 0.0661) (h / 2800.0 + (-0.720))

/-- Tps mirrors `region3.Tps` (`T* = 760/860` K, `s* = 4.4/5.3`, π-shifts
`0.240/0.760`, σ-shifts `-0.703` and `-0.818`). -/
noncomputable def Tps (t : PSTables) : Sub3 → ℝ → ℝ → ℝ
  | Sub3.a, pPa, s => 760.0 * evalSeries t.T3a (pPa / 1e6 / 100.0 + 0.240) (s / 4.4 + (-0.703))
  | Sub3.b, pPa, s => 860.0 * evalSeries t.T3b (pPa / 1e6 / 100.0 + 0.760) (s / 5.3 + (-0.818))

/-- Vps mirrors `region3.Vps` (`v* = 0.0028/0.0088`, π-shifts `0.187/0.298`,
σ-shifts `-0.755` and `-0.816`). -/
noncomputable def Vps (t : PSTables) : Sub3 → ℝ → ℝ → ℝ
  | Sub3.a, pPa, s => 0.0028 * evalSeries t.V3a (pPa / 1e6 / 100.0 + 0.187) (s / 4.4 + (-0.755))
  | Sub3.b, pPa, s => 0.0088 * evalSeries t.V3b (pPa / 1e6 / 100.0 + 0.298) (s / 5.3 + (-0.816))

/-- h3ab mirrors `region3.h3ab`: the polynomial `Σ n_i (p/1 MPa)^(i-1)` in
the 1-based coefficient list (powers accumulate from `pow = 1`). -/
noncomputable def h3ab (cs : List ℝ) (pPa : ℝ) : ℝ :=
  (cs.enum.map fun ic => ic.2 * (pPa / 1e6) ^ ic.1).sum

/-- scKJperKgK is the critical entropy constant `4.41202148223476`
kJ/(kg·K) of the source. -/
noncomputable def scKJperKgK : ℝ := 4.41202148223476

/-- R3Raw is the tuple of quantities `region3.Calculate` has computed just
before its final sanity checks. -/
structure R3Raw where
  v : ℝ
  h : ℝ
  s : ℝ
  cp : ℝ
  cv : ℝ
  w : ℝ

/-- assemble3 is the tail of `region3.Calculate`: given the computed raw
quantities it forms `ro := 1/v`, `u := h - p*v/1000`, applies the final
checks `v <= 0 || ro <= 0 || w <= 0 || cp <= 0 || cv <= 0` (the non-finite
check is vacuous over `ℝ`), and assembles the `Properties` record. -/
noncomputable def assemble3 (p : ℝ) (r : R3Raw) : Option Properties :=
  if r.v ≤ 0 ∨ 1 / r.v ≤ 0 ∨ r.w ≤ 0 ∨ r.cp ≤ 0 ∨ r.cv ≤ 0 then none
  else some ⟨r.v, 1 / r.v, r.h - p * r.v / 1000, r.s, r.h, r.cv, r.cp, r.w⟩

/-- region3Solve is the solving part of `region3.Calculate` after the
boundary checks: sub-region selection by bracketed bisection of `T(p,h)`,
`v` from `v(p,h)`, `s` from `T(p,s)`, then the numerical derivatives for
`c_p`, `α`, `κ_T`, `c_v`, `κ_s` and `w`.  `math.Nextafter(hb, 0)` and the
`Nextafter` nudges around the critical entropy have no counterpart in exact
real arithmetic and are modelled by the values themselves. -/
noncomputable def region3Solve (tPH : PHTables) (tPS : PSTables)
    (h3cs : List ℝ) (tC p : ℝ) : Option R3Raw :=
  let T := tC + 273.15
  let hb := h3ab h3cs p
  let tolT := (1e-6 : ℝ)
  let attempt : Option (ℝ × Sub3) :=
    if 100 < hb ∧ hb < 4000 then
      match bracketAndBisect (fun hh => some (Tph tPH Sub3.a p hh - T)) 1 hb 80 tolT with
      | some hs => some (hs, Sub3.a)
      | none =>
        match bracketAndBisect (fun hh => some (Tph tPH Sub3.b p hh - T)) hb 4500 80 tolT with
        | some hs => some (hs, Sub3.b)
        | none => none
    else
      match bracketAndBisect (fun hh => some (Tph tPH Sub3.a p hh - T)) 1 2500 80 tolT with
      | some hs => some (hs, Sub3.a)
      | none =>
        match bracketAndBisect (fun hh => some (Tph tPH Sub3.b p hh - T)) 2500 4500 80 tolT with
        | some hs => some (hs, Sub3.b)
        | none => none
  match attempt with
  | none => none
  | some (hsol, sub) =>
    let v := Vph tPH sub p hsol
    if ¬ (0 < v) then none
    else
      let sLo : ℝ := match sub with | Sub3.a => 0 | Sub3.b => scKJperKgK
      let sHi : ℝ := match sub with | Sub3.a => scKJperKgK | Sub3.b => 10
      match bracketAndBisect (fun ss => some (Tps tPS sub p ss - T)) sLo sHi 80 tolT with
      | none => none
      | some ssol =>
        let hLo : ℝ := match sub with | Sub3.a => 1 | Sub3.b => hb
        let hHi : ℝ := match sub with | Sub3.a => hb | Sub3.b => 4500
        match bracketAndBisect (fun hh => some (Tph tPH sub p hh - (T + 1e-3))) hLo hHi 80 tolT with
        | none => none
        | some hp =>
          match bracketAndBisect (fun hh => some (Tph tPH sub p hh - (T - 1e-3))) hLo hHi 80 tolT with
          | none => none
          | some hm =>
            let cp := (hp - hm) / (2 * 1e-3)
            let vp := Vph tPH sub p hp
            let vm := Vph tPH sub p hm
            let alpha := 1 / v * ((vp - vm) / (2 * 1e-3))
            match bracketAndBisect (fun hh => some (Tph tPH sub (p + 1e3) hh - T)) hLo hHi 80 tolT with
            | none => none
            | some hpp =>
              match bracketAndBisect (fun hh => some (Tph tPH sub (p - 1e3) hh - T)) hLo hHi 80 tolT with
              | none => none
              | some hmm =>
                let vpp := Vph tPH sub (p + 1e3) hpp
                let vmm := Vph tPH sub (p - 1e3) hmm
                let kT := -(1 / v) * ((vpp - vmm) / (2 * 1e3))
                let cv := cp - T * alpha * alpha / (1 / v * kT) / 1000
                let vpsp := Vps tPS sub (p + 1e3) ssol
                let vpsm := Vps tPS sub (p - 1e3) ssol
                let kS := -(1 / v) * ((vpsp - vpsm) / (2 * 1e3))
                let w := Real.sqrt (1 / (1 / v * kS))
                some ⟨v, hsol, ssol, cp, cv, w⟩

/-- region3Calculate mirrors `region3.Calculate` (tC in Celsius, p in Pa):
input guards, the Region 3 applicability window, the B23 refinement (the
B23 computation cannot fail after load, but the error branch is kept),
then `region3Solve` followed by the final checks of `assemble3`. -/
noncomputable def region3Calculate (tPH : PHTables) (tPS : PSTables)
    (h3cs : List ℝ) (b1 b2 b3 : ℝ) (tC p : ℝ) : Option Properties :=
  if tC < -273.15 then none
  else if p ≤ 0 then none
  else if tC + 273.15 < 623.15 ∨ 1073.15 < tC + 273.15 then none
  else if 100e6 < p then none
  else if ¬ (623.15 ≤ tC + 273.15 ∧ 16.529e6 ≤ p) then none
  else
    let solved : Option R3Raw :=
      match B23T b1 b2 b3 (p / 1e6) with
      | some tB23 =>
        if 623.15 < tC + 273.15 ∧ tC + 273.15 < tB23 then none
        else region3Solve tPH tPS h3cs tC p
      | none => region3Solve tPH tPS h3cs tC p
    solved.bind (assemble3 p)

/-- PressureHS3a mirrors `region3.PressureHS3a`: after `validateHS`
(`0 < h < 4000`, `0 < s < 10`), `p := 100·Σ N (h/2300-1.01)^I
(s/4.4-0.750)^J` MPa converted to Pa, rejecting non-positive results
(NaN/Inf checks are vacuous over `ℝ`). -/
noncomputable def PressureHS3a (tbl : List IJN) (h s : ℝ) : Option ℝ :=
  if ¬ (0 < h ∧ h < 4000) then none
  else if ¬ (0 < s ∧ s < 10) then none
  else
    let sum := (tbl.map fun t =>
      t.N * (h / 2300 - 1.01) ^ t.I * (s / 4.4 - 0.750) ^ t.J).sum
    let p := 100 * sum * 1e6
    if p ≤ 0 then none else some p

/-- PressureHS3b mirrors `region3.PressureHS3b`: the reciprocal series
`p := 100/Σ N (h/2800-0.681)^I (s/5.3-0.792)^J` MPa in Pa, rejecting a zero
denominator and non-positive results. -/
noncomputable def PressureHS3b (tbl : List IJN) (h s : ℝ) : Option ℝ :=
  if ¬ (0 < h ∧ h < 4000) then none
  else if ¬ (0 < s ∧ s < 10) then none
  else
    let denom := (tbl.map fun t =>
      t.N * (h / 2800 - 0.681) ^ t.I * (s / 5.3 - 0.792) ^ t.J).sum
    if denom = 0 then none
    else
      let p := 100 / denom * 1e6
      if p ≤ 0 then none else some p

/-- PressureFromHS mirrors `region3.PressureFromHS`: sub-region 3a when
`s <= s_c`, else 3b. -/
noncomputable def PressureFromHS (p3a p3b : List IJN) (h s : ℝ) : Option ℝ :=
  if s ≤ scKJperKgK then PressureHS3a p3a h s else PressureHS3b p3b h s

/-- PropertiesFromHS mirrors `region3.PropertiesFromHS`: pressure from the
closed-form (h,s) series, `T` and `v` from the backward (p,s) series of the
same sub-region, `ρ = 1/v`, `u = h - p·v/1000`, `c_p` from the numerical
`(∂T/∂s)_p` with `ds = 1e-5` (stored in both capacity fields), and `w` from
the isentropic compressibility with `dp = 1e3` Pa. -/
noncomputable def PropertiesFromHS (p3a p3b : List IJN) (tPS : PSTables)
    (h s : ℝ) : Option (ℝ × ℝ × Properties) :=
  match PressureFromHS p3a p3b h s with
  | none => none
  | some p =>
    let sub := if s ≤ scKJperKgK then Sub3.a else Sub3.b
    let T := Tps tPS sub p s
    let v := Vps tPS sub p s
    if ¬ (0 < v) then none
    else
      let ro := 1 / v
      let u := h - p * v / 1000
      let dTds := (Tps tPS sub p (s + 1e-5) - Tps tPS sub p (s - 1e-5)) / (2 * 1e-5)
      if dTds = 0 then none
      else
        let cp := T / dTds
        let dvdps := (Vps tPS sub (p + 1e3) s - Vps tPS sub (p - 1e3) s) / (2 * 1e3)
        let kS := -(1 / v) * dvdps
        if kS ≤ 0 then none
        else
          let w := Real.sqrt (1 / (ro * kS))
          if ro ≤ 0 ∨ u ≤ 0 ∨ cp ≤ 0 ∨ w ≤ 0 then none
          else some (p, T, ⟨v, ro, u, s, h, cp, cp, w⟩)

/-- specPressure3a is spec §4.8's closed-form 3a pressure,
`p = 100 MPa · Σ n_i (h/2300 - 1.01)^I (s/4.4 - 0.750)^J`, in Pa. -/
noncomputable def specPressure3a (tbl : List IJN) (h s : ℝ) : ℝ :=
  1e6 * (100 * (tbl.map fun t =>
    t.N * (h / 2300 - 1.01) ^ t.I * (s / 4.4 - 0.750) ^ t.J).sum)

/-- specPressure3b is spec §4.8's closed-form 3b pressure,
`p = 100 MPa / Σ n_i (h/2800 - 0.681)^I (s/5.3 - 0.792)^J`, in Pa. -/
noncomputable def specPressure3b (tbl : List IJN) (h s : ℝ) : ℝ :=
  1e6 * (100 / (tbl.map fun t =>
    t.N * (h / 2800 - 0.681) ^ t.I * (s / 5.3 - 0.792) ^ t.J).sum)

/-- r5Ideal is a one-row ideal-gas table `N·τ^J` with `J = 2`, `N = 1`. -/
def r5Ideal : List JN := [⟨2, 1⟩]

/-- r5Resid is a one-row residual table with `I = 1`, `J = 0`, `N = -1`. -/
def r5Resid : List IJN := [⟨1, 0, -1⟩]

/-- hsP3a is a one-row 3a pressure-from-(h,s) table with `I = J = 0`,
`N = 0.2`. -/
def hsP3a : List IJN := [⟨0, 0, 0.2⟩]

/-- hsPS is a backward (p,s) table set: `T3a = [(0,1,1)]`,
`V3a = [(1,0,-1),(0,0,1)]`, empty 3b tables. -/
def hsPS : PSTables := ⟨[⟨0, 1, 1⟩], [⟨1, 0, -1⟩, ⟨0, 0, 1⟩], [], []⟩

/-- Claim C1: for every finite temperature T (K) and pressure p (Pa) and for
every loaded coefficient table, `RegionFromTP` returns exactly one region
tag computed in the order the claim states (R5 cut, saturation split, B23
split, pressure fallback), and that tag is never R4.  Totality and
uniqueness are inherent: `RegionFromTP` is a function into `Region`. -/
theorem claim_C1_regionFromTP (c : SatCoeffs) (b1 b2 b3 T p : ℝ) :
    RegionFromTP c b1 b2 b3 T p = specClassifyTP c b1 b2 b3 T p ∧
      RegionFromTP c b1 b2 b3 T p ≠ Region.Region4 := by
  constructor
  · unfold RegionFromTP specClassifyTP
    by_cases h5 : 1073.15 < T
    · simp [h5]
    · simp only [h5, if_false]
      by_cases hsat : T < 647.096
      · cases hps : SaturationPressure c T with
        | none => simp [hps, hsat, B23T]
        | some ps => simp [hps, hsat]
      · simp [hsat, B23T]
  · unfold RegionFromTP
    by_cases h5 : 1073.15 < T
    · simp [h5]
    · simp only [h5, if_false]
      by_cases hsat : T < 647.096
      · cases hps : SaturationPressure c T with
        | none => simp [hps, hsat, B23T]; split <;> simp
        | some ps => simp [hps, hsat]; split <;> simp
      · simp [hsat, B23T]; split <;> simp

/-- Claim C5: for every `T > 0` and any loaded coefficient table,
`SaturationPressure` returns exactly the spec's closed form when the
discriminant is nonnegative, and an error (no clamping) whenever the
discriminant `B^2 - 4AC` is negative. -/
theorem claim_C5_saturationPressure (c : SatCoeffs) (T : ℝ) (hT : 0 < T) :
    (satDisc c T < 0 → SaturationPressure c T = none) ∧
      (0 ≤ satDisc c T → SaturationPressure c T = some (satPFormula c T)) := by
  constructor
  · intro hneg
    simp [SaturationPressure, not_le.mpr hT, hneg]
  · intro hpos
    simp [SaturationPressure, not_le.mpr hT, not_lt.mpr hpos, satPFormula, satX]

/-- Witness for C5 at the concrete input `T = 2` with `c5Coeffs`: the
hypotheses hold and the returned pressure evaluates to `1e6` Pa. -/
theorem claim_C5_witness :
    (0 : ℝ) < 2 ∧ SaturationPressure c5Coeffs 2 = some 1000000 := by
  have h2 : (0 : ℝ) < 2 := by norm_num
  have hθ : satTheta c5Coeffs 2 = 2 := by
    simp [satTheta, c5Coeffs]
  have hA : satA c5Coeffs (satTheta c5Coeffs 2) = 1 := by
    rw [hθ]; simp [satA, c5Coeffs]; norm_num
  have hB : satB c5Coeffs (satTheta c5Coeffs 2) = 0 := by
    rw [hθ]; simp [satB, c5Coeffs]
  have hC : satC c5Coeffs (satTheta c5Coeffs 2) = -1 := by
    rw [hθ]; simp [satC, c5Coeffs]
  have hd : satDisc c5Coeffs 2 = 4 := by
    rw [satDisc, hA, hB, hC]; norm_num
  have hsq : Real.sqrt (satDisc c5Coeffs 2) = 2 := by
    rw [hd, show (4 : ℝ) = 2 ^ 2 by norm_num, Real.sqrt_sq (by norm_num : (0:ℝ) ≤ 2)]
  refine ⟨h2, ?_⟩
  have := (claim_C5_saturationPressure c5Coeffs 2 h2).2 (by rw [hd]; norm_num)
  rw [this, satPFormula, hB, hC, hsq]
  norm_num

/-- Counterexample for C6: the claim says `saturation_pressure(T)` errors for
every `T` outside `[273.16, 647.096]` K, but at `T = 100` K (well below the
range) the code checks only `T > 0` and the discriminant sign, both of which
pass, so it returns a pressure value. -/
theorem claim_C6_counterexample :
    (SaturationPressure if97Region4 100).isSome = true := by
  have hT : ¬ ((100 : ℝ) ≤ 0) := by norm_num
  have hθ : satTheta if97Region4 100 =
      100 + (-0.23855557567849) / (100 - 650.17534844798) := by
    simp [satTheta, if97Region4]
  have hd : ¬ satDisc if97Region4 100 < 0 := by
    rw [satDisc, hθ]
    simp only [satA, satB, satC, if97Region4]
    norm_num
  simp [SaturationPressure, hT, hd]

/-- Claim C6 amended: `SaturationPressure` errors exactly on non-positive
temperature or a negative discriminant, and `SaturationTemperature` errors
exactly on non-positive pressure or a negative (outer or inner)
discriminant; neither function range-checks `[273.16, 647.096]` K or
`[611.657, 22.064e6]` Pa. -/
theorem claim_C6_amended :
    (∀ T : ℝ, SaturationPressure if97Region4 T = none ↔
      (T ≤ 0 ∨ satDisc if97Region4 T < 0)) ∧
    (∀ p : ℝ, SaturationTemperature if97Region4 p = none ↔
      (p ≤ 0 ∨ satTDisc if97Region4 p < 0 ∨ satTInner if97Region4 p < 0)) := by
  constructor
  · intro T
    unfold SaturationPressure
    constructor
    · intro h
      by_contra hcon
      push_neg at hcon
      obtain ⟨h1, h2⟩ := hcon
      rw [if_neg (not_le.mpr h1)] at h
      simp only [not_lt.mpr h2, if_false] at h
      exact Option.some_ne_none _ h
    · rintro (h | h)
      · simp [h]
      · by_cases hT : T ≤ 0 <;> simp [hT, h]
  · intro p
    unfold SaturationTemperature
    constructor
    · intro h
      by_contra hcon
      push_neg at hcon
      obtain ⟨h1, h2, h3⟩ := hcon
      rw [if_neg (not_le.mpr h1), if_neg (not_lt.mpr h2), if_neg (not_lt.mpr h3)] at h
      exact Option.some_ne_none _ h
    · rintro (h | h | h)
      · simp [h]
      · by_cases hp : p ≤ 0 <;> simp [hp, h]
      · by_cases hp : p ≤ 0
        · simp [hp]
        · by_cases hd : satTDisc if97Region4 p < 0 <;> simp [hp, hd, h]

/-- sqrtBounds sandwiches a square root between two rational bounds given
the squared comparisons. -/
lemma sqrtBounds (x sl su : ℝ) (h0 : 0 ≤ sl) (hsu : 0 ≤ su)
    (h1 : sl ^ 2 ≤ x) (h2 : x ≤ su ^ 2) :
    sl ≤ Real.sqrt x ∧ Real.sqrt x ≤ su := by
  constructor
  · have := Real.sqrt_le_sqrt h1
    rwa [Real.sqrt_sq h0] at this
  · have := Real.sqrt_le_sqrt h2
    rwa [Real.sqrt_sq hsu] at this

/-- quadRootAux: the rationalised root `x := 2*C/(-B + s)` with
`s^2 = B^2 - 4*A*C` satisfies the quadratic `A*x^2 + B*x + C = 0`. -/
lemma quadRootAux (A B C s : ℝ) (hden : 0 < -B + s) (hs : s ^ 2 = B * B - 4 * A * C) :
    A * (2 * C / (-B + s)) ^ 2 + B * (2 * C / (-B + s)) + C = 0 := by
  have hne : -B + s ≠ 0 := ne_of_gt hden
  field_simp
  linear_combination (C * (s - B)) * hs

/-- satRoundtripExact: under the root-selection side conditions that hold
throughout the IF-97 saturation domain, the backward relation of
`region4.SaturationTemperature` recovers the forward input of
`region4.SaturationPressure` exactly (in exact real arithmetic the two
quadratic inversions cancel). -/
lemma satRoundtripExact (c : SatCoeffs) (T : ℝ)
    (hT : 0 < T)
    (hTn : T ≠ c.n10)
    (hd : 0 ≤ satDisc c T)
    (hB : satB c (satTheta c T) < 0)
    (hC : 0 < satC c (satTheta c T))
    (hθpos : 0 < satTheta c T)
    (hroot : 2 * T ≤ c.n10 + satTheta c T)
    (hFE : 0 < satTF c (satX c T) + 2 * satTE c (satX c T) * satTheta c T)
    (hG : satTG c (satX c T) ≠ 0) :
    (SaturationPressure c T).bind (SaturationTemperature c) = some T := by
  have hs0 : (0 : ℝ) ≤ Real.sqrt (satDisc c T) := Real.sqrt_nonneg _
  have hden : 0 < -satB c (satTheta c T) + Real.sqrt (satDisc c T) := by linarith
  have hxpos : 0 < satX c T := div_pos (by linarith) hden
  have hp : SaturationPressure c T = some (1e6 * satX c T ^ (4 : ℕ)) := by
    simp [SaturationPressure, not_le.mpr hT, not_lt.mpr hd]
  have hppos : 0 < 1e6 * satX c T ^ (4 : ℕ) := by positivity
  have hbeta : satTBeta (1e6 * satX c T ^ (4 : ℕ)) = satX c T := by
    unfold satTBeta
    have h1 : (1e6 * satX c T ^ (4 : ℕ)) / 1e6 = satX c T ^ (4 : ℕ) := by
      field_simp
    rw [h1, show satX c T ^ (4 : ℕ) = satX c T ^ ((4 : ℕ) : ℝ) from
      (Real.rpow_natCast _ 4).symm, ← Real.rpow_mul hxpos.le]
    norm_num
  have hABC : satA c (satTheta c T) * satX c T ^ 2 +
      satB c (satTheta c T) * satX c T + satC c (satTheta c T) = 0 := by
    rw [satX]
    exact quadRootAux _ _ _ _ hden (by rw [Real.sq_sqrt hd, satDisc])
  have hEFG : satTE c (satX c T) * satTheta c T ^ 2 +
      satTF c (satX c T) * satTheta c T + satTG c (satX c T) = 0 := by
    have hsym : satTE c (satX c T) * satTheta c T ^ 2 +
        satTF c (satX c T) * satTheta c T + satTG c (satX c T) =
        satA c (satTheta c T) * satX c T ^ 2 +
        satB c (satTheta c T) * satX c T + satC c (satTheta c T) := by
      simp only [satTE, satTF, satTG, satA, satB, satC]; ring
    rw [hsym, hABC]
  have hdisc2 : satTDisc c (1e6 * satX c T ^ (4 : ℕ)) =
      (satTF c (satX c T) + 2 * satTE c (satX c T) * satTheta c T) ^ 2 := by
    unfold satTDisc
    rw [hbeta]
    linear_combination (-4 * satTE c (satX c T)) * hEFG
  have hsqrt2 : Real.sqrt (satTDisc c (1e6 * satX c T ^ (4 : ℕ))) =
      satTF c (satX c T) + 2 * satTE c (satX c T) * satTheta c T := by
    rw [hdisc2, Real.sqrt_sq hFE.le]
  have hθne : satTheta c T ≠ 0 := ne_of_gt hθpos
  have hD : satTD c (1e6 * satX c T ^ (4 : ℕ)) = satTheta c T := by
    unfold satTD
    rw [hbeta, hsqrt2]
    have h1 : -satTF c (satX c T) -
        (satTF c (satX c T) + 2 * satTE c (satX c T) * satTheta c T) =
        2 * satTG c (satX c T) / satTheta c T := by
      field_simp
      linear_combination (-2 : ℝ) * hEFG
    rw [h1, div_div_eq_mul_div]
    exact mul_div_cancel_left₀ _ (mul_ne_zero two_ne_zero hG)
  have hθT : satTheta c T * (T - c.n10) = T * (T - c.n10) + c.n9 := by
    rw [satTheta]
    field_simp [sub_ne_zero.mpr hTn]
  have hinner : satTInner c (1e6 * satX c T ^ (4 : ℕ)) =
      (c.n10 + satTheta c T - 2 * T) ^ 2 := by
    unfold satTInner
    rw [hD]
    linear_combination (4 : ℝ) * hθT
  have hinner0 : 0 ≤ satTInner c (1e6 * satX c T ^ (4 : ℕ)) := by
    rw [hinner]; positivity
  have hsqrtInner : Real.sqrt (satTInner c (1e6 * satX c T ^ (4 : ℕ))) =
      c.n10 + satTheta c T - 2 * T := by
    rw [hinner, Real.sqrt_sq (by linarith : (0:ℝ) ≤ c.n10 + satTheta c T - 2 * T)]
  have hTs : SaturationTemperature c (1e6 * satX c T ^ (4 : ℕ)) = some T := by
    unfold SaturationTemperature
    rw [if_neg (not_le.mpr hppos),
        if_neg (not_lt.mpr (by rw [hdisc2]; positivity)),
        if_neg (not_lt.mpr hinner0), hsqrtInner, hD]
    congr 1
    ring
  rw [hp]
  exact hTs

/-- satXBounds turns rational bounds on the discriminant's square root into
rational bounds on the intermediate `x` of `region4.SaturationPressure`. -/
lemma satXBounds (c : SatCoeffs) (T sl su blo bhi : ℝ)
    (hsl0 : 0 ≤ sl) (hsu0 : 0 ≤ su)
    (h1 : sl ^ 2 ≤ satDisc c T) (h2 : satDisc c T ≤ su ^ 2)
    (hB : satB c (satTheta c T) < 0)
    (hC : 0 < satC c (satTheta c T))
    (hlo : blo * (-satB c (satTheta c T) + su) ≤ 2 * satC c (satTheta c T))
    (hhi : 2 * satC c (satTheta c T) ≤ bhi * (-satB c (satTheta c T) + sl)) :
    blo ≤ satX c T ∧ satX c T ≤ bhi := by
  obtain ⟨hs1, hs2⟩ := sqrtBounds _ sl su hsl0 hsu0 h1 h2
  have hden : 0 < -satB c (satTheta c T) + Real.sqrt (satDisc c T) := by linarith
  have hdenL : 0 < -satB c (satTheta c T) + sl := by linarith
  have hdenU : 0 < -satB c (satTheta c T) + su := by linarith
  constructor
  · have hA : 2 * satC c (satTheta c T) / (-satB c (satTheta c T) + su) ≤ satX c T := by
      rw [satX]
      apply div_le_div_of_nonneg_left (by linarith) hden (by linarith)
    have hA2 : blo ≤ 2 * satC c (satTheta c T) / (-satB c (satTheta c T) + su) :=
      (le_div_iff hdenU).mpr hlo
    linarith
  · have hA : satX c T ≤ 2 * satC c (satTheta c T) / (-satB c (satTheta c T) + sl) := by
      rw [satX]
      apply div_le_div_of_nonneg_left (by linarith) hdenL (by linarith)
    have hA2 : 2 * satC c (satTheta c T) / (-satB c (satTheta c T) + sl) ≤ bhi :=
      (div_le_iff hdenL).mpr hhi
    linarith

/-- if97proj records the field values of `if97Region4` for rewriting without
unfolding the structure literal itself. -/
lemma if97proj :
    if97Region4.n1 = 1167.0521452767 ∧ if97Region4.n2 = -724213.16703206 ∧
    if97Region4.n3 = -17.073846940092 ∧ if97Region4.n4 = 12020.82470247 ∧
    if97Region4.n5 = -3232555.0322333 ∧ if97Region4.n6 = 14.91510861353 ∧
    if97Region4.n7 = -4823.2657361591 ∧ if97Region4.n8 = 405113.40542057 ∧
    if97Region4.n9 = -0.23855557567849 ∧ if97Region4.n10 = 650.17534844798 :=
  ⟨rfl, rfl, rfl, rfl, rfl, rfl, rfl, rfl, rfl, rfl⟩

/-- roundtrip27316 establishes the exact saturation round-trip at
`T = 273.16` K for the modelled IF-97 coefficients. -/
lemma roundtrip27316 :
    (SaturationPressure if97Region4 273.16).bind (SaturationTemperature if97Region4) =
      some 273.16 := by
  have hB : satB if97Region4 (satTheta if97Region4 273.16) < 0 := by
    simp only [satB, satTheta, if97Region4]; norm_num
  have hC : 0 < satC if97Region4 (satTheta if97Region4 273.16) := by
    simp only [satC, satTheta, if97Region4]; norm_num
  have hxb : ((31452631 : ℝ)/200000000) ≤ satX if97Region4 273.16 ∧ satX if97Region4 273.16 ≤ ((157263157 : ℝ)/1000000000) := by
    refine satXBounds _ _ ((1658725097 : ℝ)/1250) ((13269800781 : ℝ)/10000) _ _ (by norm_num) (by norm_num) ?_ ?_ hB hC ?_ ?_
    · simp only [satDisc, satA, satB, satC, satTheta, if97Region4]; norm_num
    · simp only [satDisc, satA, satB, satC, satTheta, if97Region4]; norm_num
    · simp only [satB, satC, satTheta, if97Region4]; norm_num
    · simp only [satB, satC, satTheta, if97Region4]; norm_num
  refine satRoundtripExact _ _ ?_ ?_ ?_ hB hC ?_ ?_ ?_ ?_
  · norm_num
  · simp only [if97Region4]; norm_num
  · simp only [satDisc, satA, satB, satC, satTheta, if97Region4]; norm_num
  · simp only [satTheta, if97Region4]; norm_num
  · simp only [satTheta, if97Region4]; norm_num
  · simp only [satTF, satTE, satTheta, if97proj.1, if97proj.2.2.1,
      if97proj.2.2.2.1, if97proj.2.2.2.2.2.1, if97proj.2.2.2.2.2.2.1,
      if97proj.2.2.2.2.2.2.2.2.1, if97proj.2.2.2.2.2.2.2.2.2]
    nlinarith [hxb.1, hxb.2, sq_nonneg (satX if97Region4 273.16 - ((31452631 : ℝ)/200000000))]
  · have hGneg : satTG if97Region4 (satX if97Region4 273.16) < 0 := by
      simp only [satTG, if97proj.2.1, if97proj.2.2.2.2.1,
        if97proj.2.2.2.2.2.2.2.1]
      nlinarith [hxb.1, hxb.2, sq_nonneg (satX if97Region4 273.16 - ((31452631 : ℝ)/200000000))]
    exact ne_of_lt hGneg

/-- roundtrip300 establishes the exact saturation round-trip at
`T = 300` K for the modelled IF-97 coefficients. -/
lemma roundtrip300 :
    (SaturationPressure if97Region4 300).bind (SaturationTemperature if97Region4) =
      some 300 := by
  have hB : satB if97Region4 (satTheta if97Region4 300) < 0 := by
    simp only [satB, satTheta, if97Region4]; norm_num
  have hC : 0 < satC if97Region4 (satTheta if97Region4 300) := by
    simp only [satC, satTheta, if97Region4]; norm_num
  have hxb : ((121931569 : ℝ)/500000000) ≤ satX if97Region4 300 ∧ satX if97Region4 300 ≤ ((243863141 : ℝ)/1000000000) := by
    refine satXBounds _ _ ((2603027753 : ℝ)/2000) ((1301513877 : ℝ)/1000) _ _ (by norm_num) (by norm_num) ?_ ?_ hB hC ?_ ?_
    · simp only [satDisc, satA, satB, satC, satTheta, if97Region4]; norm_num
    · simp only [satDisc, satA, satB, satC, satTheta, if97Region4]; norm_num
    · simp only [satB, satC, satTheta, if97Region4]; norm_num
    · simp only [satB, satC, satTheta, if97Region4]; norm_num
  refine satRoundtripExact _ _ ?_ ?_ ?_ hB hC ?_ ?_ ?_ ?_
  · norm_num
  · simp only [if97Region4]; norm_num
  · simp only [satDisc, satA, satB, satC, satTheta, if97Region4]; norm_num
  · simp only [satTheta, if97Region4]; norm_num
  · simp only [satTheta, if97Region4]; norm_num
  · simp only [satTF, satTE, satTheta, if97proj.1, if97proj.2.2.1,
      if97proj.2.2.2.1, if97proj.2.2.2.2.2.1, if97proj.2.2.2.2.2.2.1,
      if97proj.2.2.2.2.2.2.2.2.1, if97proj.2.2.2.2.2.2.2.2.2]
    nlinarith [hxb.1, hxb.2, sq_nonneg (satX if97Region4 300 - ((121931569 : ℝ)/500000000))]
  · have hGneg : satTG if97Region4 (satX if97Region4 300) < 0 := by
      simp only [satTG, if97proj.2.1, if97proj.2.2.2.2.1,
        if97proj.2.2.2.2.2.2.2.1]
      nlinarith [hxb.1, hxb.2, sq_nonneg (satX if97Region4 300 - ((121931569 : ℝ)/500000000))]
    exact ne_of_lt hGneg

/-- roundtrip37315 establishes the exact saturation round-trip at
`T = 373.15` K for the modelled IF-97 coefficients. -/
lemma roundtrip37315 :
    (SaturationPressure if97Region4 373.15).bind (SaturationTemperature if97Region4) =
      some 373.15 := by
  have hB : satB if97Region4 (satTheta if97Region4 373.15) < 0 := by
    simp only [satB, satTheta, if97Region4]; norm_num
  have hC : 0 < satC if97Region4 (satTheta if97Region4 373.15) := by
    simp only [satC, satTheta, if97Region4]; norm_num
  have hxb : ((564324279 : ℝ)/1000000000) ≤ satX if97Region4 373.15 ∧ satX if97Region4 373.15 ≤ ((282162141 : ℝ)/500000000) := by
    refine satXBounds _ _ ((6465396223 : ℝ)/5000) ((12930792451 : ℝ)/10000) _ _ (by norm_num) (by norm_num) ?_ ?_ hB hC ?_ ?_
    · simp only [satDisc, satA, satB, satC, satTheta, if97Region4]; norm_num
    · simp only [satDisc, satA, satB, satC, satTheta, if97Region4]; norm_num
    · simp only [satB, satC, satTheta, if97Region4]; norm_num
    · simp only [satB, satC, satTheta, if97Region4]; norm_num
  refine satRoundtripExact _ _ ?_ ?_ ?_ hB hC ?_ ?_ ?_ ?_
  · norm_num
  · simp only [if97Region4]; norm_num
  · simp only [satDisc, satA, satB, satC, satTheta, if97Region4]; norm_num
  · simp only [satTheta, if97Region4]; norm_num
  · simp only [satTheta, if97Region4]; norm_num
  · simp only [satTF, satTE, satTheta, if97proj.1, if97proj.2.2.1,
      if97proj.2.2.2.1, if97proj.2.2.2.2.2.1, if97proj.2.2.2.2.2.2.1,
      if97proj.2.2.2.2.2.2.2.2.1, if97proj.2.2.2.2.2.2.2.2.2]
    nlinarith [hxb.1, hxb.2, sq_nonneg (satX if97Region4 373.15 - ((564324279 : ℝ)/1000000000))]
  · have hGneg : satTG if97Region4 (satX if97Region4 373.15) < 0 := by
      simp only [satTG, if97proj.2.1, if97proj.2.2.2.2.1,
        if97proj.2.2.2.2.2.2.2.1]
      nlinarith [hxb.1, hxb.2, sq_nonneg (satX if97Region4 373.15 - ((564324279 : ℝ)/1000000000))]
    exact ne_of_lt hGneg

/-- roundtrip450 establishes the exact saturation round-trip at
`T = 450` K for the modelled IF-97 coefficients. -/
lemma roundtrip450 :
    (SaturationPressure if97Region4 450).bind (SaturationTemperature if97Region4) =
      some 450 := by
  have hB : satB if97Region4 (satTheta if97Region4 450) < 0 := by
    simp only [satB, satTheta, if97Region4]; norm_num
  have hC : 0 < satC if97Region4 (satTheta if97Region4 450) := by
    simp only [satC, satTheta, if97Region4]; norm_num
  have hxb : ((491279641 : ℝ)/500000000) ≤ satX if97Region4 450 ∧ satX if97Region4 450 ≤ ((491279643 : ℝ)/500000000) := by
    refine satXBounds _ _ ((1273837171 : ℝ)/1000) ((2547674343 : ℝ)/2000) _ _ (by norm_num) (by norm_num) ?_ ?_ hB hC ?_ ?_
    · simp only [satDisc, satA, satB, satC, satTheta, if97Region4]; norm_num
    · simp only [satDisc, satA, satB, satC, satTheta, if97Region4]; norm_num
    · simp only [satB, satC, satTheta, if97Region4]; norm_num
    · simp only [satB, satC, satTheta, if97Region4]; norm_num
  refine satRoundtripExact _ _ ?_ ?_ ?_ hB hC ?_ ?_ ?_ ?_
  · norm_num
  · simp only [if97Region4]; norm_num
  · simp only [satDisc, satA, satB, satC, satTheta, if97Region4]; norm_num
  · simp only [satTheta, if97Region4]; norm_num
  · simp only [satTheta, if97Region4]; norm_num
  · simp only [satTF, satTE, satTheta, if97proj.1, if97proj.2.2.1,
      if97proj.2.2.2.1, if97proj.2.2.2.2.2.1, if97proj.2.2.2.2.2.2.1,
      if97proj.2.2.2.2.2.2.2.2.1, if97proj.2.2.2.2.2.2.2.2.2]
    nlinarith [hxb.1, hxb.2, sq_nonneg (satX if97Region4 450 - ((491279641 : ℝ)/500000000))]
  · have hGneg : satTG if97Region4 (satX if97Region4 450) < 0 := by
      simp only [satTG, if97proj.2.1, if97proj.2.2.2.2.1,
        if97proj.2.2.2.2.2.2.2.1]
      nlinarith [hxb.1, hxb.2, sq_nonneg (satX if97Region4 450 - ((491279641 : ℝ)/500000000))]
    exact ne_of_lt hGneg

/-- roundtrip600 establishes the exact saturation round-trip at
`T = 600` K for the modelled IF-97 coefficients. -/
lemma roundtrip600 :
    (SaturationPressure if97Region4 600).bind (SaturationTemperature if97Region4) =
      some 600 := by
  have hB : satB if97Region4 (satTheta if97Region4 600) < 0 := by
    simp only [satB, satTheta, if97Region4]; norm_num
  have hC : 0 < satC if97Region4 (satTheta if97Region4 600) := by
    simp only [satC, satTheta, if97Region4]; norm_num
  have hxb : ((234302411 : ℝ)/125000000) ≤ satX if97Region4 600 ∧ satX if97Region4 600 ≤ ((937209647 : ℝ)/500000000) := by
    refine satXBounds _ _ ((9069654867 : ℝ)/10000) ((9069654871 : ℝ)/10000) _ _ (by norm_num) (by norm_num) ?_ ?_ hB hC ?_ ?_
    · simp only [satDisc, satA, satB, satC, satTheta, if97Region4]; norm_num
    · simp only [satDisc, satA, satB, satC, satTheta, if97Region4]; norm_num
    · simp only [satB, satC, satTheta, if97Region4]; norm_num
    · simp only [satB, satC, satTheta, if97Region4]; norm_num
  refine satRoundtripExact _ _ ?_ ?_ ?_ hB hC ?_ ?_ ?_ ?_
  · norm_num
  · simp only [if97Region4]; norm_num
  · simp only [satDisc, satA, satB, satC, satTheta, if97Region4]; norm_num
  · simp only [satTheta, if97Region4]; norm_num
  · simp only [satTheta, if97Region4]; norm_num
  · simp only [satTF, satTE, satTheta, if97proj.1, if97proj.2.2.1,
      if97proj.2.2.2.1, if97proj.2.2.2.2.2.1, if97proj.2.2.2.2.2.2.1,
      if97proj.2.2.2.2.2.2.2.2.1, if97proj.2.2.2.2.2.2.2.2.2]
    nlinarith [hxb.1, hxb.2, sq_nonneg (satX if97Region4 600 - ((234302411 : ℝ)/125000000))]
  · have hGneg : satTG if97Region4 (satX if97Region4 600) < 0 := by
      simp only [satTG, if97proj.2.1, if97proj.2.2.2.2.1,
        if97proj.2.2.2.2.2.2.2.1]
      nlinarith [hxb.1, hxb.2, sq_nonneg (satX if97Region4 600 - ((234302411 : ℝ)/125000000))]
    exact ne_of_lt hGneg

/-- Claim C7: for every temperature in {273.16, 300, 373.15, 450, 600} K the
round-trip `SaturationTemperature (SaturationPressure T)` returns a value
equal to `T` — here proved exact in the real-arithmetic model, hence in
particular within the claimed 5 ppm relative error. -/
theorem claim_C7_saturationRoundtrip :
    (SaturationPressure if97Region4 273.16).bind (SaturationTemperature if97Region4) =
        some 273.16 ∧
      (SaturationPressure if97Region4 300).bind (SaturationTemperature if97Region4) =
        some 300 ∧
      (SaturationPressure if97Region4 373.15).bind (SaturationTemperature if97Region4) =
        some 373.15 ∧
      (SaturationPressure if97Region4 450).bind (SaturationTemperature if97Region4) =
        some 450 ∧
      (SaturationPressure if97Region4 600).bind (SaturationTemperature if97Region4) =
        some 600 :=
  ⟨roundtrip27316, roundtrip300, roundtrip37315, roundtrip450, roundtrip600⟩

/-- divPosParts extracts nonzeroness of numerator and denominator from a
positive quotient (with Lean's `x/0 = 0` convention). -/
lemma divPosParts {x y : ℝ} (h : 0 < x / y) : x ≠ 0 ∧ y ≠ 0 := by
  constructor <;> rintro rfl <;> simp at h

/-- region1CalculateCore: a successful `region1.Calculate` run is a
successful `region1Core` run (the outer guards only filter). -/
lemma region1CalculateCore {rows : List IJN} {c4 : SatCoeffs} {tC p : ℝ}
    {pr : Properties} (h : region1Calculate rows c4 tC p = some pr) :
    region1Core rows tC p = some pr := by
  unfold region1Calculate at h
  split at h
  · simp at h
  split at h
  · simp at h
  split at h
  · simp at h
  split at h
  · simp at h
  split at h
  · split at h
    · split at h
      · simp at h
      · exact h
    · exact h
  · exact h

/-- region1CoreInv: a successful `region1Core` run satisfies the §3
invariants, with `c_p = c_v` exactly (both fields are assigned the same
expression in the source). -/
lemma region1CoreInv {rows : List IJN} {tC p : ℝ} {pr : Properties}
    (h : region1Core rows tC p = some pr) :
    coreInvariants p pr ∧
      pr.SpecificIsobaricHeatCapacity = pr.SpecificIsochoricHeatCapacity := by
  simp only [region1Core] at h
  split at h
  · simp at h
  split at h
  · simp at h
  split at h
  · simp at h
  next hcap =>
  rw [Option.some_inj] at h
  subst h
  rename_i hden hpos
  push_neg at hpos hcap
  obtain ⟨hro, hv, hw⟩ := hpos
  obtain ⟨hcp, hcv⟩ := hcap
  obtain ⟨hq, hd⟩ := divPosParts hro
  obtain ⟨hRT, hpig⟩ := mul_ne_zero_iff.mp hd
  have hpne : p ≠ 0 := by
    intro h0
    exact hq (by rw [h0]; norm_num)
  refine ⟨⟨hv, hro, hcv, hcp, hw, ?_, ?_⟩, rfl⟩
  · show p / 1000 / _ * _ = 1
    field_simp
    ring
  · show _ - _ - p * _ / 1000 = 0
    field_simp
    ring

/-- roVone: the density/volume assembly of the region cores multiplies to
exactly one whenever the checked density is a nonzero quotient. -/
lemma roVone {pk rt pg : ℝ} (hq : pk ≠ 0) (hd : rt * pg ≠ 0) :
    pk / (rt * pg) * (pg * (rt / pk)) = 1 := by
  obtain ⟨hrt, hpg⟩ := mul_ne_zero_iff.mp hd
  field_simp
  ring

/-- huIdent: the enthalpy/internal-energy assembly of the region cores
satisfies `h - u - p*v/1000 = 0` exactly. -/
lemma huIdent {R T tau gT pi gP p : ℝ} (hpne : p ≠ 0) :
    R * T * tau * gT - R * T * (tau * gT - pi * gP) -
      p * (pi * gP * (R * T / (p / 1000))) / 1000 = 0 := by
  field_simp
  ring

/-- region2CalculateCore: a successful `region2.Calculate` run is a
successful `region2Core` run. -/
lemma region2CalculateCore {ideal : List JN} {resid : List IJN}
    {c4 : SatCoeffs} {tC p : ℝ} {pr : Properties}
    (h : region2Calculate ideal resid c4 tC p = some pr) :
    region2Core ideal resid tC p = some pr := by
  unfold region2Calculate at h
  split at h
  · simp at h
  split at h
  · simp at h
  split at h
  · simp at h
  split at h
  · simp at h
  split at h
  · simp at h
  split at h
  · split at h
    · split at h
      · simp at h
      · exact h
    · exact h
  · exact h

/-- region2CoreInv: a successful `region2Core` run satisfies the §3
invariants, with `c_p = c_v` exactly (the source computes `cv` with
`math.Pow(x,2)` and `cp` with `x*x` — the same real number). -/
lemma region2CoreInv {ideal : List JN} {resid : List IJN} {tC p : ℝ}
    {pr : Properties} (h : region2Core ideal resid tC p = some pr) :
    coreInvariants p pr ∧
      pr.SpecificIsobaricHeatCapacity = pr.SpecificIsochoricHeatCapacity := by
  simp only [region2Core] at h
  split at h
  · simp at h
  split at h
  · simp at h
  next hcap =>
  rw [Option.some_inj] at h
  subst h
  rename_i hpos
  push_neg at hpos hcap
  obtain ⟨hro, hv, hw⟩ := hpos
  obtain ⟨hcp, hcv⟩ := hcap
  obtain ⟨hq, hd⟩ := divPosParts hro
  obtain ⟨hRT, hpig⟩ := mul_ne_zero_iff.mp hd
  have hpne : p ≠ 0 := by
    intro h0
    exact hq (by rw [h0]; norm_num)
  refine ⟨⟨hv, hro, hcv, hcp, hw, roVone hq hd, huIdent hpne⟩, ?_⟩
  show (0.461526 : ℝ) * _ = 0.461526 * _
  ring

/-- region5CpCv: `region5.Calculate` performs no output validation, and on
success its two heat-capacity fields are the same real number. -/
lemma region5CpCv {ideal : List JN} {resid : List IJN} {tC p : ℝ}
    {pr : Properties} (h : region5Calculate ideal resid tC p = some pr) :
    pr.SpecificIsobaricHeatCapacity = pr.SpecificIsochoricHeatCapacity := by
  simp only [region5Calculate] at h
  split at h
  · simp at h
  split at h
  · simp at h
  split at h
  · simp at h
  split at h
  · simp at h
  rw [Option.some_inj] at h
  subst h
  show (0.461526 : ℝ) * _ = 0.461526 * _
  ring

/-- region1CoreFields: the heat-capacity and speed-of-sound fields returned
by a successful `region1Core` run, read off the source expressions: both
capacity fields carry `R*(-(τ²)·g_ττ + (g_π-τ·g_πτ)²/g_ππ)` and the speed
of sound uses the absolute-valued denominator. -/
lemma region1CoreFields {rows : List IJN} {tC p : ℝ} {pr : Properties}
    (h : region1Core rows tC p = some pr) :
    pr.SpecificIsobaricHeatCapacity =
      0.461526 * (-(r1tau tC * r1tau tC) * g1TauTau rows (r1pi p) (r1tau tC) +
        (g1Pi rows (r1pi p) (r1tau tC) -
          r1tau tC * g1PiTau rows (r1pi p) (r1tau tC)) ^ 2 /
          g1PiPi rows (r1pi p) (r1tau tC)) ∧
    pr.SpecificIsochoricHeatCapacity = pr.SpecificIsobaricHeatCapacity ∧
    pr.SpeedOfSound = Real.sqrt (0.461526 * 1000 * (tC + 273.15) *
      (g1Pi rows (r1pi p) (r1tau tC) * g1Pi rows (r1pi p) (r1tau tC) /
        |g1PiPi rows (r1pi p) (r1tau tC) -
          (g1Pi rows (r1pi p) (r1tau tC) -
            r1tau tC * g1PiTau rows (r1pi p) (r1tau tC)) ^ 2 /
          (r1tau tC * r1tau tC * g1TauTau rows (r1pi p) (r1tau tC))|)) := by
  simp only [region1Core] at h
  split at h
  · simp at h
  split at h
  · simp at h
  split at h
  · simp at h
  rw [Option.some_inj] at h
  subst h
  exact ⟨rfl, rfl, rfl⟩

/-- psatFailNone: `SaturationPressure` with the `psatFail` table errors at
every temperature. -/
lemma psatFailNone (T : ℝ) : SaturationPressure psatFail T = none := by
  unfold SaturationPressure
  by_cases hT : T ≤ 0
  · simp [hT]
  · have hd : satDisc psatFail T < 0 := by
      simp only [satDisc, satA, satB, satC, satTheta, psatFail]
      norm_num
      nlinarith [sq_nonneg T]
    simp [hT, hd]

/-- ex1Some: `region1.Calculate` succeeds on `ex1Rows` at the concrete
input (all applicability guards and sanity checks pass). -/
lemma ex1Some : (region1Calculate ex1Rows psatFail 73.35 99180000).isSome = true := by
  simp only [region1Calculate, psatFailNone, region1Core,
    g1, g1Pi, g1PiPi, g1Tau, g1TauTau, g1PiTau, r1pi, r1tau, ex1Rows,
    List.map_cons, List.map_nil, List.sum_cons, List.sum_nil]
  norm_num [Real.sqrt_pos]
  rw [show |(1479 / 800 : ℝ)| = 1479 / 800 from abs_of_pos (by norm_num)]
  rw [if_neg (by norm_num), if_neg (not_le.mpr (by positivity))]
  rfl

/-- ex2Some: `region1.Calculate` succeeds on `ex2Rows` at the concrete
input. -/
lemma ex2Some : (region1Calculate ex2Rows psatFail 73.35 99180000).isSome = true := by
  simp only [region1Calculate, psatFailNone, region1Core,
    g1, g1Pi, g1PiPi, g1Tau, g1TauTau, g1PiTau, r1pi, r1tau, ex2Rows,
    List.map_cons, List.map_nil, List.sum_cons, List.sum_nil]
  norm_num [Real.sqrt_pos]
  rw [show |(44625 / 29282 : ℝ)| = 44625 / 29282 from abs_of_pos (by norm_num)]
  rw [if_neg (by norm_num), if_neg (not_le.mpr (by positivity))]
  rfl

/-- Counterexample for C3: claim C3 asserts that on every successful
Region 1 computation the returned `c_p` equals `-R·τ²·g_ττ`.  On the
two-term table `ex1Rows` at `tC = 73.35` °C, `p = 99.18` MPa the
computation succeeds, yet the returned `c_p` (assigned the isochoric
expression in the source) differs from `-R·τ²·g_ττ`. -/
theorem claim_C3_counterexample :
    (region1Calculate ex1Rows psatFail 73.35 99180000).isSome = true ∧
      cpOf (region1Calculate ex1Rows psatFail 73.35 99180000) ≠
        -(0.461526 * (r1tau 73.35 * r1tau 73.35) *
          g1TauTau ex1Rows (r1pi 99180000) (r1tau 73.35)) := by
  refine ⟨ex1Some, ?_⟩
  obtain ⟨pr, hpr⟩ := Option.isSome_iff_exists.mp ex1Some
  have hf := region1CoreFields (region1CalculateCore hpr)
  rw [hpr]
  simp only [cpOf, Option.map_some', Option.getD_some]
  rw [hf.1]
  simp only [g1TauTau, g1Pi, g1PiTau, g1PiPi, ex1Rows, r1pi, r1tau,
    List.map_cons, List.map_nil, List.sum_cons, List.sum_nil]
  norm_num

/-- Claim C3 amended: on every successful Region 1 computation, both
returned heat-capacity fields equal
`R·(-(τ²)·g_ττ + (g_π - τ·g_πτ)²/g_ππ)` — the isochoric formula; the
claimed isobaric formula `-R·τ²·g_ττ` is not what the source assigns to
`c_p`, and `c_v` is not `c_p` minus the correction term but exactly
`c_p`. -/
theorem claim_C3_amended (rows : List IJN) (c4 : SatCoeffs) (tC p : ℝ)
    (pr : Properties) (h : region1Calculate rows c4 tC p = some pr) :
    pr.SpecificIsobaricHeatCapacity =
      0.461526 * (-(r1tau tC * r1tau tC) * g1TauTau rows (r1pi p) (r1tau tC) +
        (g1Pi rows (r1pi p) (r1tau tC) -
          r1tau tC * g1PiTau rows (r1pi p) (r1tau tC)) ^ 2 /
          g1PiPi rows (r1pi p) (r1tau tC)) ∧
      pr.SpecificIsochoricHeatCapacity = pr.SpecificIsobaricHeatCapacity := by
  have hf := region1CoreFields (region1CalculateCore h)
  exact ⟨hf.1, hf.2.1⟩

/-- Witness for C3 amended at the `ex1Rows` example: both heat-capacity
fields evaluate to `341298477/25000000` (= 13.65193908 kJ/(kg·K)). -/
theorem claim_C3_witness :
    cpOf (region1Calculate ex1Rows psatFail 73.35 99180000) = 341298477 / 25000000 ∧
      cvOf (region1Calculate ex1Rows psatFail 73.35 99180000) =
        cpOf (region1Calculate ex1Rows psatFail 73.35 99180000) := by
  obtain ⟨pr, hpr⟩ := Option.isSome_iff_exists.mp ex1Some
  have h := claim_C3_amended ex1Rows psatFail 73.35 99180000 pr hpr
  rw [hpr]
  simp only [cpOf, cvOf, Option.map_some', Option.getD_some]
  constructor
  · rw [h.1]
    simp only [g1TauTau, g1Pi, g1PiTau, g1PiPi, ex1Rows, r1pi, r1tau,
      List.map_cons, List.map_nil, List.sum_cons, List.sum_nil]
    norm_num
  · exact h.2

/-- Counterexample for C4: claim C4 asserts `w² = 1000·R·T·g_π²/D` with the
signed denominator `D = (g_π-τ·g_πτ)²/(τ²·g_ττ) - g_ππ`.  On `ex2Rows` at
the concrete input the computation succeeds with `D < 0`, while the
returned `w²` is positive (the source divides by `|D|`). -/
theorem claim_C4_counterexample :
    (region1Calculate ex2Rows psatFail 73.35 99180000).isSome = true ∧
      wOf (region1Calculate ex2Rows psatFail 73.35 99180000) ^ 2 ≠
        1000 * 0.461526 * (73.35 + 273.15) *
          g1Pi ex2Rows (r1pi 99180000) (r1tau 73.35) ^ 2 /
          ((g1Pi ex2Rows (r1pi 99180000) (r1tau 73.35) -
              r1tau 73.35 * g1PiTau ex2Rows (r1pi 99180000) (r1tau 73.35)) ^ 2 /
            (r1tau 73.35 * r1tau 73.35 *
              g1TauTau ex2Rows (r1pi 99180000) (r1tau 73.35)) -
            g1PiPi ex2Rows (r1pi 99180000) (r1tau 73.35)) := by
  refine ⟨ex2Some, ?_⟩
  obtain ⟨pr, hpr⟩ := Option.isSome_iff_exists.mp ex2Some
  have hf := region1CoreFields (region1CalculateCore hpr)
  have hinv := region1CoreInv (region1CalculateCore hpr)
  have hwpos : 0 < pr.SpeedOfSound := hinv.1.2.2.2.2.1
  have harg := Real.sqrt_pos.mp (hf.2.2 ▸ hwpos)
  rw [hpr]
  simp only [wOf, Option.map_some', Option.getD_some]
  rw [hf.2.2, Real.sq_sqrt harg.le]
  simp only [g1TauTau, g1Pi, g1PiTau, g1PiPi, ex2Rows, r1pi, r1tau,
    List.map_cons, List.map_nil, List.sum_cons, List.sum_nil]
  norm_num
  rw [abs_of_pos (show (0:ℝ) < 44625 / 29282 by norm_num)]
  norm_num

/-- Claim C4 amended: on every successful Region 1 computation the returned
speed of sound is computed with the absolute-valued denominator:
`w = sqrt(1000·R·T·g_π²/|g_ππ - (g_π-τ·g_πτ)²/(τ²·g_ττ)|)`, equivalently
`w² = 1000·R·T·g_π²/|(g_π-τ·g_πτ)²/(τ²·g_ττ) - g_ππ|`. -/
theorem claim_C4_amended (rows : List IJN) (c4 : SatCoeffs) (tC p : ℝ)
    (pr : Properties) (h : region1Calculate rows c4 tC p = some pr) :
    pr.SpeedOfSound = Real.sqrt (0.461526 * 1000 * (tC + 273.15) *
      (g1Pi rows (r1pi p) (r1tau tC) * g1Pi rows (r1pi p) (r1tau tC) /
        |g1PiPi rows (r1pi p) (r1tau tC) -
          (g1Pi rows (r1pi p) (r1tau tC) -
            r1tau tC * g1PiTau rows (r1pi p) (r1tau tC)) ^ 2 /
          (r1tau tC * r1tau tC * g1TauTau rows (r1pi p) (r1tau tC))|)) ∧
      pr.SpeedOfSound ^ 2 = 1000 * 0.461526 * (tC + 273.15) *
        g1Pi rows (r1pi p) (r1tau tC) ^ 2 /
        |(g1Pi rows (r1pi p) (r1tau tC) -
            r1tau tC * g1PiTau rows (r1pi p) (r1tau tC)) ^ 2 /
          (r1tau tC * r1tau tC * g1TauTau rows (r1pi p) (r1tau tC)) -
          g1PiPi rows (r1pi p) (r1tau tC)| := by
  have hf := region1CoreFields (region1CalculateCore h)
  have hinv := region1CoreInv (region1CalculateCore h)
  have hwpos : 0 < pr.SpeedOfSound := hinv.1.2.2.2.2.1
  have harg := Real.sqrt_pos.mp (hf.2.2 ▸ hwpos)
  refine ⟨hf.2.2, ?_⟩
  rw [hf.2.2, Real.sq_sqrt harg.le, abs_sub_comm]
  ring

/-- Witness for C4 amended at the `ex2Rows` example: the returned `w²`
evaluates to `30460716/425` (m/s)². -/
theorem claim_C4_witness :
    wOf (region1Calculate ex2Rows psatFail 73.35 99180000) ^ 2 = 30460716 / 425 := by
  obtain ⟨pr, hpr⟩ := Option.isSome_iff_exists.mp ex2Some
  have h := claim_C4_amended ex2Rows psatFail 73.35 99180000 pr hpr
  rw [hpr]
  simp only [wOf, Option.map_some', Option.getD_some]
  rw [h.2]
  simp only [g1TauTau, g1Pi, g1PiTau, g1PiPi, ex2Rows, r1pi, r1tau,
    List.map_cons, List.map_nil, List.sum_cons, List.sum_nil]
  norm_num
  rw [abs_of_pos (show (0:ℝ) < 44625 / 29282 by norm_num)]
  norm_num

/-- scanStepCount: the scan performs at most `left` `f`-evaluations. -/
lemma scanStepCount (f : ℝ → Option ℝ) (a b : ℝ) (n : ℕ) :
    ∀ left k prevX prevF, (scanStep f a b n left k prevX prevF).2 ≤ left := by
  intro left
  induction left with
  | zero => intro k prevX prevF; simp [scanStep]
  | succ m ih =>
    intro k prevX prevF
    simp only [scanStep]
    cases f (a + (k : ℝ) / (n : ℝ) * (b - a)) with
    | none => simp
    | some fx =>
      by_cases hc : prevF * fx ≤ 0
      · simp [hc]
      · simp only [hc, if_false]
        have := ih (k + 1) (a + (k : ℝ) / (n : ℝ) * (b - a)) fx
        omega

/-- bisectStepCount: bisection performs at most `it` `f`-evaluations. -/
lemma bisectStepCount (f : ℝ → Option ℝ) (tol : ℝ) :
    ∀ it a b fa fb, (bisectStep f tol it a b fa fb).2 ≤ it := by
  intro it
  induction it with
  | zero => intro a b fa fb; simp [bisectStep]
  | succ m ih =>
    intro a b fa fb
    simp only [bisectStep]
    cases f ((a + b) / 2) with
    | none => simp
    | some fm =>
      by_cases h1 : |fm| < tol ∨ |b - a| < tol
      · simp [h1]
      · simp only [h1, if_false]
        by_cases h2 : fa * fm ≤ 0
        · simp only [h2, if_true]
          have := ih a ((a + b) / 2) fa fm
          omega
        · simp only [h2, if_false]
          have := ih ((a + b) / 2) b fm fb
          omega

/-- bracketCount: `bracketAndBisect` evaluates `f` at most `52 + maxIter`
times: two endpoints, at most 50 scan points, at most `maxIter`
midpoints. -/
lemma bracketCount (f : ℝ → Option ℝ) (a b : ℝ) (maxIter : ℕ) (tol : ℝ) :
    (bracketAndBisectC f a b maxIter tol).2 ≤ 52 + maxIter := by
  unfold bracketAndBisectC
  cases f a with
  | none => show 1 ≤ 52 + maxIter; omega
  | some fa =>
    cases f b with
    | none => show 2 ≤ 52 + maxIter; omega
    | some fb =>
      dsimp only
      by_cases h0 : fa = 0
      · rw [if_pos h0]; show 2 ≤ 52 + maxIter; omega
      by_cases h1 : fb = 0
      · rw [if_neg h0, if_pos h1]; show 2 ≤ 52 + maxIter; omega
      by_cases h2 : 0 < fa * fb
      · simp only [h0, h1, h2, if_false, if_true]
        rcases hs : scanStep f a b 50 50 1 a fa with ⟨o, c⟩
        have hc : c ≤ 50 := by
          have := scanStepCount f a b 50 50 1 a fa
          rw [hs] at this
          exact this
        match o with
        | none => simp; omega
        | some none => simp; omega
        | some (some (a2, b2, fa2, fb2)) =>
          simp only
          have := bisectStepCount f tol maxIter a2 b2 fa2 fb2
          omega
      · simp only [h0, h1, h2, if_false]
        have := bisectStepCount f tol maxIter a b fa fb
        omega

/-- scanStepSameSign: if every value `f` returns on `[a,b]` has the strict
sign of the nonzero constant `c0`, the scan never finds a sign change: it
either exhausts its points (`some none`) or propagates an `f`-error. -/
lemma scanStepSameSign (f : ℝ → Option ℝ) (a b : ℝ) (n : ℕ) (c0 : ℝ)
    (hc0 : c0 ≠ 0) (hab : a ≤ b)
    (hf : ∀ x ∈ Set.Icc a b, ∀ y, f x = some y → 0 < c0 * y) :
    ∀ left k prevX prevF, k + left = n + 1 → 0 < n → 0 < c0 * prevF →
      (scanStep f a b n left k prevX prevF).1 = some none ∨
        (scanStep f a b n left k prevX prevF).1 = none := by
  intro left
  induction left with
  | zero => intro k prevX prevF _ _ _; left; simp [scanStep]
  | succ m ih =>
    intro k prevX prevF hk hn hprev
    have hkn : (k : ℝ) ≤ (n : ℝ) := by exact_mod_cast Nat.le_of_succ_le_succ (by omega)
    have hnpos : (0 : ℝ) < (n : ℝ) := by exact_mod_cast hn
    have ht0 : 0 ≤ (k : ℝ) / (n : ℝ) := by positivity
    have ht1 : (k : ℝ) / (n : ℝ) ≤ 1 := (div_le_one hnpos).mpr hkn
    have hx : a + (k : ℝ) / (n : ℝ) * (b - a) ∈ Set.Icc a b := by
      constructor
      · nlinarith [sub_nonneg.mpr hab]
      · nlinarith [sub_nonneg.mpr hab]
    simp only [scanStep]
    cases hfx : f (a + (k : ℝ) / (n : ℝ) * (b - a)) with
    | none => right; rfl
    | some fx =>
      have hfxpos : 0 < c0 * fx := hf _ hx fx hfx
      have hprod : ¬ (prevF * fx ≤ 0) := by
        have h1 : 0 < c0 * prevF * (c0 * fx) := mul_pos hprev hfxpos
        have h2 : c0 * prevF * (c0 * fx) = c0 ^ 2 * (prevF * fx) := by ring
        rw [h2] at h1
        have hc2 : 0 < c0 ^ 2 := by positivity
        nlinarith
      simp only [hprod, if_false]
      exact ih (k + 1) _ fx (by omega) hn hfxpos

/-- bracketSameSignNone: when every value `f` returns on `[a,b]` has the
strict sign of the nonzero constant `c0` (in particular, when `f` has no
sign change anywhere in `[a,b]`), `bracketAndBisect` returns an error. -/
lemma bracketSameSignNone (f : ℝ → Option ℝ) (a b : ℝ) (maxIter : ℕ)
    (tol : ℝ) (c0 : ℝ) (hc0 : c0 ≠ 0) (hab : a ≤ b)
    (hf : ∀ x ∈ Set.Icc a b, ∀ y, f x = some y → 0 < c0 * y) :
    bracketAndBisect f a b maxIter tol = none := by
  unfold bracketAndBisect bracketAndBisectC
  cases hfa : f a with
  | none => rfl
  | some fa =>
    have hfapos : 0 < c0 * fa := hf a (by constructor <;> [exact le_refl a; exact hab]) fa hfa
    cases hfb : f b with
    | none => rfl
    | some fb =>
      have hfbpos : 0 < c0 * fb := hf b (by constructor <;> [exact hab; exact le_refl b]) fb hfb
      have hfane : fa ≠ 0 := by
        intro h0; rw [h0, mul_zero] at hfapos; exact lt_irrefl 0 hfapos
      have hfbne : fb ≠ 0 := by
        intro h0; rw [h0, mul_zero] at hfbpos; exact lt_irrefl 0 hfbpos
      have hprod : 0 < fa * fb := by
        have h1 : 0 < c0 * fa * (c0 * fb) := mul_pos hfapos hfbpos
        have h2 : c0 * fa * (c0 * fb) = c0 ^ 2 * (fa * fb) := by ring
        rw [h2] at h1
        nlinarith [sq_nonneg c0, sq_abs c0, abs_pos.mpr hc0]
      dsimp only
      rw [if_neg hfane, if_neg hfbne, if_pos hprod]
      have hscan := scanStepSameSign f a b 50 c0 hc0 hab hf 50 1 a fa
        (by omega) (by omega) hfapos
      rcases hs : scanStep f a b 50 50 1 a fa with ⟨o, c⟩
      rw [hs] at hscan
      rcases hscan with h | h
      · simp only at h
        subst h
        rfl
      · simp only at h
        subst h
        rfl

/-- bisectStepEval: a bisection success returns a point at which `f` was
actually evaluated successfully. -/
lemma bisectStepEval (f : ℝ → Option ℝ) (tol : ℝ) :
    ∀ it a b fa fb x, (bisectStep f tol it a b fa fb).1 = some x →
      ∃ y, f x = some y := by
  intro it
  induction it with
  | zero => intro a b fa fb x h; simp [bisectStep] at h
  | succ m ih =>
    intro a b fa fb x h
    simp only [bisectStep] at h
    cases hfm : f ((a + b) / 2) with
    | none => rw [hfm] at h; simp at h
    | some fm =>
      rw [hfm] at h
      by_cases h1 : |fm| < tol ∨ |b - a| < tol
      · simp only [h1, if_true] at h
        rw [Option.some_inj] at h
        subst h
        exact ⟨fm, hfm⟩
      · simp only [h1, if_false] at h
        by_cases h2 : fa * fm ≤ 0
        · simp only [h2, if_true] at h
          exact ih _ _ _ _ _ h
        · simp only [h2, if_false] at h
          exact ih _ _ _ _ _ h

/-- bisectStepMem: bisection stays inside the enclosing interval. -/
lemma bisectStepMem (f : ℝ → Option ℝ) (tol : ℝ) (lo hi : ℝ) :
    ∀ it a b fa fb x, lo ≤ a → a ≤ b → b ≤ hi →
      (bisectStep f tol it a b fa fb).1 = some x → lo ≤ x ∧ x ≤ hi := by
  intro it
  induction it with
  | zero => intro a b fa fb x _ _ _ h; simp [bisectStep] at h
  | succ m ih =>
    intro a b fa fb x hlo hab hhi h
    simp only [bisectStep] at h
    cases hfm : f ((a + b) / 2) with
    | none => rw [hfm] at h; simp at h
    | some fm =>
      rw [hfm] at h
      have hm1 : a ≤ (a + b) / 2 := by linarith
      have hm2 : (a + b) / 2 ≤ b := by linarith
      by_cases h1 : |fm| < tol ∨ |b - a| < tol
      · simp only [h1, if_true] at h
        rw [Option.some_inj] at h
        subst h
        constructor <;> linarith
      · simp only [h1, if_false] at h
        by_cases h2 : fa * fm ≤ 0
        · simp only [h2, if_true] at h
          exact ih _ _ _ _ _ hlo hm1 (by linarith) h
        · simp only [h2, if_false] at h
          exact ih _ _ _ _ _ (by linarith) hm2 hhi h

/-- scanStepFound: a bracket returned by the scan lies inside `[a,b]` and
is correctly ordered. -/
lemma scanStepFound (f : ℝ → Option ℝ) (a b : ℝ) (n : ℕ) (hn : 0 < n)
    (hab : a ≤ b) :
    ∀ left k prevX prevF a2 b2 fa2 fb2, k + left = n + 1 →
      a ≤ prevX → prevX ≤ a + ((k : ℝ) - 1) / (n : ℝ) * (b - a) →
      (scanStep f a b n left k prevX prevF).1 = some (some (a2, b2, fa2, fb2)) →
      a ≤ a2 ∧ a2 ≤ b2 ∧ b2 ≤ b := by
  intro left
  induction left with
  | zero => intro k prevX prevF a2 b2 fa2 fb2 _ _ _ h; simp [scanStep] at h
  | succ m ih =>
    intro k prevX prevF a2 b2 fa2 fb2 hk hpx1 hpx2 h
    have hkn : (k : ℝ) ≤ (n : ℝ) := by exact_mod_cast Nat.le_of_succ_le_succ (by omega)
    have hnpos : (0 : ℝ) < (n : ℝ) := by exact_mod_cast hn
    have ht1 : (k : ℝ) / (n : ℝ) ≤ 1 := (div_le_one hnpos).mpr hkn
    simp only [scanStep] at h
    cases hfx : f (a + (k : ℝ) / (n : ℝ) * (b - a)) with
    | none => rw [hfx] at h; simp at h
    | some fx =>
      rw [hfx] at h
      by_cases hc : prevF * fx ≤ 0
      · simp only [hc, if_true, Option.some_inj, Prod.mk.injEq] at h
        obtain ⟨h1, h2, h3, h4⟩ := h
        subst h1
        subst h2
        have hmono : ((k : ℝ) - 1) / (n : ℝ) ≤ (k : ℝ) / (n : ℝ) :=
          (div_le_div_right hnpos).mpr (by linarith)
        refine ⟨hpx1, ?_, ?_⟩
        · nlinarith [mul_nonneg (sub_nonneg.mpr hmono) (sub_nonneg.mpr hab)]
        · nlinarith [mul_nonneg (sub_nonneg.mpr ht1) (sub_nonneg.mpr hab)]
      · simp only [hc, if_false] at h
        refine ih (k + 1) _ fx a2 b2 fa2 fb2 (by omega) ?_ ?_ h
        · have : (0 : ℝ) ≤ (k : ℝ) / (n : ℝ) := by positivity
          nlinarith [sub_nonneg.mpr hab]
        · have : ((k : ℝ) + 1 - 1) / (n : ℝ) = (k : ℝ) / (n : ℝ) := by ring
          rw [Nat.cast_add, Nat.cast_one, this]

/-- bracketSuccess: a `bracketAndBisect` success is never a fabricated
root: the returned point was actually evaluated successfully by `f`, and
(when the interval is ordered) it lies inside `[a,b]`. -/
lemma bracketSuccess (f : ℝ → Option ℝ) (a b : ℝ) (maxIter : ℕ) (tol : ℝ)
    (x : ℝ) (h : bracketAndBisect f a b maxIter tol = some x) :
    (∃ y, f x = some y) ∧ (a ≤ b → a ≤ x ∧ x ≤ b) := by
  unfold bracketAndBisect bracketAndBisectC at h
  cases hfa : f a with
  | none => rw [hfa] at h; simp at h
  | some fa =>
    rw [hfa] at h
    cases hfb : f b with
    | none => rw [hfb] at h; simp at h
    | some fb =>
      rw [hfb] at h
      dsimp only at h
      by_cases h0 : fa = 0
      · rw [if_pos h0] at h
        simp only [Option.some_inj] at h
        subst h
        exact ⟨⟨fa, hfa⟩, fun hab => ⟨le_rfl, hab⟩⟩
      rw [if_neg h0] at h
      by_cases h1 : fb = 0
      · rw [if_pos h1] at h
        simp only [Option.some_inj] at h
        subst h
        exact ⟨⟨fb, hfb⟩, fun hab => ⟨hab, le_rfl⟩⟩
      rw [if_neg h1] at h
      by_cases h2 : 0 < fa * fb
      · rw [if_pos h2] at h
        rcases hs : scanStep f a b 50 50 1 a fa with ⟨o, c⟩
        rw [hs] at h
        match o, h with
        | some (some (a2, b2, fa2, fb2)), h =>
          simp only at h
          refine ⟨bisectStepEval f tol maxIter a2 b2 fa2 fb2 x h, fun hab => ?_⟩
          have hfound := scanStepFound f a b 50 (by omega) hab 50 1 a fa a2 b2 fa2 fb2
            (by omega) (le_refl a) (by norm_num)
          rw [hs] at hfound
          obtain ⟨ha2, hord, hb2⟩ := hfound rfl
          exact bisectStepMem f tol a b maxIter a2 b2 fa2 fb2 x ha2 hord hb2 h
      · rw [if_neg h2] at h
        simp only at h
        exact ⟨bisectStepEval f tol maxIter a b fa fb x h, fun hab =>
          bisectStepMem f tol a b maxIter a b fa fb x (le_refl a) hab (le_refl b) h⟩

/-- Claim C8: every call `bracketAndBisect(f, a, b, 80, tol)` terminates
with bounded work — at most `2 + 50 + 80 = 132` evaluations of `f`
(endpoints, scan points, bisection midpoints); it returns an error when `f`
fails at the first evaluated point, and when `f` has no sign change
anywhere in `[a,b]` (all values strictly positive, or all strictly
negative); and a returned root is never fabricated: it was produced by a
successful `f`-evaluation and lies inside `[a,b]`.  (In Lean every
definition is total, so termination itself is inherent in the
construction; the evaluation count makes the work bound explicit.) -/
theorem claim_C8_bracketAndBisect (f : ℝ → Option ℝ) (a b tol : ℝ) :
    (bracketAndBisectC f a b 80 tol).2 ≤ 132 ∧
      (f a = none → bracketAndBisect f a b 80 tol = none) ∧
      (a ≤ b → (∀ x ∈ Set.Icc a b, ∀ y, f x = some y → 0 < y) →
        bracketAndBisect f a b 80 tol = none) ∧
      (a ≤ b → (∀ x ∈ Set.Icc a b, ∀ y, f x = some y → y < 0) →
        bracketAndBisect f a b 80 tol = none) ∧
      (∀ x, bracketAndBisect f a b 80 tol = some x →
        (∃ y, f x = some y) ∧ (a ≤ b → a ≤ x ∧ x ≤ b)) := by
  refine ⟨bracketCount f a b 80 tol, ?_, ?_, ?_, ?_⟩
  · intro hfa
    unfold bracketAndBisect bracketAndBisectC
    rw [hfa]
  · intro hab hf
    exact bracketSameSignNone f a b 80 tol 1 one_ne_zero hab
      (fun x hx y hy => by simpa using hf x hx y hy)
  · intro hab hf
    exact bracketSameSignNone f a b 80 tol (-1) (by norm_num) hab
      (fun x hx y hy => by
        have := hf x hx y hy
        nlinarith)
  · intro x hx
    exact bracketSuccess f a b 80 tol x hx

/-- Witness for C8 at a concrete same-sign function: `f = const (some 1)`
on `[0,1]` — the finder reports an error (no sign change), within the
evaluation bound. -/
theorem claim_C8_witness :
    bracketAndBisect (fun _ => some 1) 0 1 80 1e-6 = none ∧
      (bracketAndBisectC (fun _ => some 1) 0 1 80 1e-6).2 ≤ 132 := by
  constructor
  · exact (claim_C8_bracketAndBisect (fun _ => some 1) 0 1 1e-6).2.2.1 (by norm_num)
      (fun x _ y hy => by
        have : (1 : ℝ) = y := Option.some_inj.mp hy
        rw [← this]
        norm_num)
  · exact (claim_C8_bracketAndBisect (fun _ => some 1) 0 1 1e-6).1

/-- assemble3Inv: whatever raw values reach the final checks, a successful
`assemble3` enforces the §3 invariants exactly. -/
lemma assemble3Inv {p : ℝ} {r : R3Raw} {pr : Properties}
    (h : assemble3 p r = some pr) : coreInvariants p pr := by
  unfold assemble3 at h
  split at h
  · simp at h
  next hchk =>
  rw [Option.some_inj] at h
  subst h
  push_neg at hchk
  obtain ⟨hv, hro, hw, hcp, hcv⟩ := hchk
  have hvne : r.v ≠ 0 := ne_of_gt hv
  refine ⟨hv, hro, hcv, hcp, hw, ?_, ?_⟩
  · show 1 / r.v * r.v = 1
    field_simp
  · show r.h - (r.h - p * r.v / 1000) - p * r.v / 1000 = 0
    ring

/-- region3CalculateInv: a successful `region3.Calculate` run satisfies the
§3 invariants (the final checks do not compare `c_p` with `c_v`). -/
lemma region3CalculateInv {tPH : PHTables} {tPS : PSTables} {h3cs : List ℝ}
    {b1 b2 b3 tC p : ℝ} {pr : Properties}
    (h : region3Calculate tPH tPS h3cs b1 b2 b3 tC p = some pr) :
    coreInvariants p pr := by
  unfold region3Calculate at h
  split at h
  · simp at h
  split at h
  · simp at h
  split at h
  · simp at h
  split at h
  · simp at h
  split at h
  · simp at h
  obtain ⟨r, _, hasm⟩ := Option.bind_eq_some.mp h
  exact assemble3Inv hasm

/-- propertiesFromHSFields: what a successful `PropertiesFromHS` run
returns, read off the source: the pressure comes from `PressureFromHS`,
`T` and `v` from the (p,s) backward series of the sub-region selected by
`s ≶ s_c`, `ρ = 1/v`, `u = h - p·v/1000`, and both heat-capacity fields
hold the same value. -/
lemma propertiesFromHSFields {p3a p3b : List IJN} {tPS : PSTables}
    {h0 s0 p T : ℝ} {pr : Properties}
    (h : PropertiesFromHS p3a p3b tPS h0 s0 = some (p, T, pr)) :
    PressureFromHS p3a p3b h0 s0 = some p ∧
      T = Tps tPS (if s0 ≤ scKJperKgK then Sub3.a else Sub3.b) p s0 ∧
      pr.SpecificVolume = Vps tPS (if s0 ≤ scKJperKgK then Sub3.a else Sub3.b) p s0 ∧
      pr.Density = 1 / pr.SpecificVolume ∧
      pr.SpecificInternalEnergy = h0 - p * pr.SpecificVolume / 1000 ∧
      pr.SpecificIsobaricHeatCapacity = pr.SpecificIsochoricHeatCapacity := by
  unfold PropertiesFromHS at h
  cases hp : PressureFromHS p3a p3b h0 s0 with
  | none => rw [hp] at h; simp at h
  | some p' =>
    rw [hp] at h
    dsimp only at h
    by_cases hs : s0 ≤ scKJperKgK
    · simp only [hs, if_true] at h ⊢
      split at h
      · simp at h
      split at h
      · simp at h
      split at h
      · simp at h
      split at h
      · simp at h
      rw [Option.some_inj, Prod.mk.injEq] at h
      obtain ⟨hpe, h2⟩ := h
      rw [Prod.mk.injEq] at h2
      obtain ⟨hTe, hpre⟩ := h2
      subst hpe
      subst hTe
      subst hpre
      exact ⟨rfl, rfl, rfl, rfl, rfl, rfl⟩
    · simp only [hs, if_false] at h ⊢
      split at h
      · simp at h
      split at h
      · simp at h
      split at h
      · simp at h
      split at h
      · simp at h
      rw [Option.some_inj, Prod.mk.injEq] at h
      obtain ⟨hpe, h2⟩ := h
      rw [Prod.mk.injEq] at h2
      obtain ⟨hTe, hpre⟩ := h2
      subst hpe
      subst hTe
      subst hpre
      exact ⟨rfl, rfl, rfl, rfl, rfl, rfl⟩

/-- pressureHS3aVal: a successful `PressureHS3a` returns exactly the spec's
3a series value. -/
lemma pressureHS3aVal {tbl : List IJN} {h s p : ℝ}
    (hp : PressureHS3a tbl h s = some p) : p = specPressure3a tbl h s := by
  unfold PressureHS3a at hp
  split at hp
  · simp at hp
  split at hp
  · simp at hp
  dsimp only at hp
  split at hp
  · simp at hp
  rw [Option.some_inj] at hp
  rw [← hp, specPressure3a]
  ring

/-- pressureHS3bVal: a successful `PressureHS3b` returns exactly the spec's
reciprocal 3b series value. -/
lemma pressureHS3bVal {tbl : List IJN} {h s p : ℝ}
    (hp : PressureHS3b tbl h s = some p) : p = specPressure3b tbl h s := by
  unfold PressureHS3b at hp
  split at hp
  · simp at hp
  split at hp
  · simp at hp
  dsimp only at hp
  split at hp
  · simp at hp
  split at hp
  · simp at hp
  rw [Option.some_inj] at hp
  rw [← hp, specPressure3b]
  ring

/-- Claim C9: on every successful `PropertiesFromHS` run the computation
follows the specified pathway: `p` is the closed-form 3a series when
`s <= s_c = 4.41202148223476` and the reciprocal 3b series when `s > s_c`;
then `T = T_sub(p,s)` and `v = v_sub(p,s)` from the backward series of the
same sub-region, `ρ = 1/v` and `u = h - p·v/1000`. -/
theorem claim_C9_propertiesFromHS (p3a p3b : List IJN) (tPS : PSTables)
    (h0 s0 p T : ℝ) (pr : Properties)
    (h : PropertiesFromHS p3a p3b tPS h0 s0 = some (p, T, pr)) :
    (s0 ≤ scKJperKgK → p = specPressure3a p3a h0 s0) ∧
      (¬ s0 ≤ scKJperKgK → p = specPressure3b p3b h0 s0) ∧
      T = Tps tPS (if s0 ≤ scKJperKgK then Sub3.a else Sub3.b) p s0 ∧
      pr.SpecificVolume = Vps tPS (if s0 ≤ scKJperKgK then Sub3.a else Sub3.b) p s0 ∧
      pr.Density = 1 / pr.SpecificVolume ∧
      pr.SpecificInternalEnergy = h0 - p * pr.SpecificVolume / 1000 := by
  obtain ⟨hp, hT, hv, hro, hu, _⟩ := propertiesFromHSFields h
  refine ⟨?_, ?_, hT, hv, hro, hu⟩
  · intro hs
    rw [PressureFromHS, if_pos hs] at hp
    exact pressureHS3aVal hp
  · intro hs
    rw [PressureFromHS, if_neg hs] at hp
    exact pressureHS3bVal hp

/-- r5Some: at 2000 K (1726.85 °C) and 2 MPa the Region 5 computation on
the `r5Ideal`/`r5Resid` tables succeeds (the source validates nothing). -/
lemma r5Some : (region5Calculate r5Ideal r5Resid 1726.85 2000000).isSome = true := by
  rw [region5Calculate, if_neg (by norm_num), if_neg (by norm_num),
    if_neg (by push_neg; constructor <;> norm_num), if_neg (by norm_num)]
  rfl

/-- Counterexample for C2: `region5.Calculate` performs no output
validation, so it can return successfully with a negative specific volume:
on the `r5Ideal`/`r5Resid` tables at 2000 K and 2 MPa it succeeds and
returns `v = -0.461526 < 0`. -/
theorem claim_C2_counterexample :
    (region5Calculate r5Ideal r5Resid 1726.85 2000000).isSome = true ∧
      vOf (region5Calculate r5Ideal r5Resid 1726.85 2000000) < 0 := by
  refine ⟨r5Some, ?_⟩
  rw [region5Calculate, if_neg (by norm_num), if_neg (by norm_num),
    if_neg (by push_neg; constructor <;> norm_num), if_neg (by norm_num)]
  simp only [vOf, Option.map_some', Option.getD_some]
  simp only [resPi, r5Resid, List.map_cons, List.map_nil, List.sum_cons,
    List.sum_nil]
  norm_num

/-- Claim C2 amended: every successful `Calculate` of Regions 1, 2 and 3
satisfies the §3 invariants — `v, ρ, c_v, c_p, w > 0`, `ρ·v = 1` exactly,
`h - u - p·v/1000 = 0` exactly — and Regions 1 and 2 additionally return
`c_v ≤ c_p` (in fact `c_p = c_v`).  Region 5 is excluded: its source
returns the record without any validation, as `claim_C2_counterexample`
shows, and Region 3 does not compare `c_p` with `c_v`. -/
theorem claim_C2_amended :
    (∀ (rows : List IJN) (c4 : SatCoeffs) (tC p : ℝ) (pr : Properties),
        region1Calculate rows c4 tC p = some pr →
          coreInvariants p pr ∧
            pr.SpecificIsochoricHeatCapacity ≤ pr.SpecificIsobaricHeatCapacity) ∧
      (∀ (ideal : List JN) (resid : List IJN) (c4 : SatCoeffs) (tC p : ℝ)
          (pr : Properties),
        region2Calculate ideal resid c4 tC p = some pr →
          coreInvariants p pr ∧
            pr.SpecificIsochoricHeatCapacity ≤ pr.SpecificIsobaricHeatCapacity) ∧
      (∀ (tPH : PHTables) (tPS : PSTables) (h3cs : List ℝ) (b1 b2 b3 tC p : ℝ)
          (pr : Properties),
        region3Calculate tPH tPS h3cs b1 b2 b3 tC p = some pr →
          coreInvariants p pr) := by
  refine ⟨?_, ?_, ?_⟩
  · intro rows c4 tC p pr h
    obtain ⟨hinv, hcc⟩ := region1CoreInv (region1CalculateCore h)
    exact ⟨hinv, hcc.ge⟩
  · intro ideal resid c4 tC p pr h
    obtain ⟨hinv, hcc⟩ := region2CoreInv (region2CalculateCore h)
    exact ⟨hinv, hcc.ge⟩
  · intro tPH tPS h3cs b1 b2 b3 tC p pr h
    exact region3CalculateInv h

/-- Witness for C2 amended at the `ex1Rows` Region 1 example: the returned
specific volume is positive and `ρ·v = 1` exactly. -/
theorem claim_C2_witness :
    0 < vOf (region1Calculate ex1Rows psatFail 73.35 99180000) ∧
      roOf (region1Calculate ex1Rows psatFail 73.35 99180000) *
        vOf (region1Calculate ex1Rows psatFail 73.35 99180000) = 1 := by
  obtain ⟨pr, hpr⟩ := Option.isSome_iff_exists.mp ex1Some
  have h := (claim_C2_amended.1 ex1Rows psatFail 73.35 99180000 pr hpr).1
  rw [hpr]
  simp only [vOf, roOf, Option.map_some', Option.getD_some]
  exact ⟨h.1, h.2.2.2.2.2.1⟩

/-- Claim C10: on every successful run, the Region 1, Region 2 and
Region 5 `Calculate` functions and the Region 3 `(h,s)` path
`PropertiesFromHS` return a `SpecificIsobaricHeatCapacity` exactly equal
to the `SpecificIsochoricHeatCapacity` (the two fields receive the same
arithmetic expression), so a strict `c_p > c_v` can only come from the
Region 3 `(T,p)` path. -/
theorem claim_C10_capacities :
    (∀ (rows : List IJN) (c4 : SatCoeffs) (tC p : ℝ) (pr : Properties),
        region1Calculate rows c4 tC p = some pr →
          pr.SpecificIsobaricHeatCapacity = pr.SpecificIsochoricHeatCapacity) ∧
      (∀ (ideal : List JN) (resid : List IJN) (c4 : SatCoeffs) (tC p : ℝ)
          (pr : Properties),
        region2Calculate ideal resid c4 tC p = some pr →
          pr.SpecificIsobaricHeatCapacity = pr.SpecificIsochoricHeatCapacity) ∧
      (∀ (ideal : List JN) (resid : List IJN) (tC p : ℝ) (pr : Properties),
        region5Calculate ideal resid tC p = some pr →
          pr.SpecificIsobaricHeatCapacity = pr.SpecificIsochoricHeatCapacity) ∧
      (∀ (p3a p3b : List IJN) (tPS : PSTables) (h0 s0 p T : ℝ) (pr : Properties),
        PropertiesFromHS p3a p3b tPS h0 s0 = some (p, T, pr) →
          pr.SpecificIsobaricHeatCapacity = pr.SpecificIsochoricHeatCapacity) := by
  refine ⟨?_, ?_, ?_, ?_⟩
  · intro rows c4 tC p pr h
    exact (region1CoreInv (region1CalculateCore h)).2
  · intro ideal resid c4 tC p pr h
    exact (region2CoreInv (region2CalculateCore h)).2
  · intro ideal resid tC p pr h
    exact region5CpCv h
  · intro p3a p3b tPS h0 s0 p T pr h
    exact (propertiesFromHSFields h).2.2.2.2.2

/-- Witness for C10 at the `r5Ideal`/`r5Resid` Region 5 example: the two
returned heat-capacity fields are equal. -/
theorem claim_C10_witness :
    cpOf (region5Calculate r5Ideal r5Resid 1726.85 2000000) =
      cvOf (region5Calculate r5Ideal r5Resid 1726.85 2000000) := by
  obtain ⟨pr, hpr⟩ := Option.isSome_iff_exists.mp r5Some
  have h := claim_C10_capacities.2.2.1 r5Ideal r5Resid 1726.85 2000000 pr hpr
  rw [hpr]
  simp only [cpOf, cvOf, Option.map_some', Option.getD_some]
  exact h

/-- hsEval: on the `hsP3a`/`hsPS` tables at `h = 2000`, `s = 4.4` the
(h,s) pathway succeeds with `p = 20 MPa`, `T = 225.72 K` and the record
assembled by the source. -/
lemma hsEval : PropertiesFromHS hsP3a [] hsPS 2000 4.4 =
    some (20000000, 5643 / 25,
      ⟨4291 / 2500000, 2500000 / 4291, 245709 / 125, 4.4, 2000,
        3267 / 2500, 3267 / 2500, Real.sqrt (2630383 / 25)⟩) := by
  have hsc : (4.4 : ℝ) ≤ scKJperKgK := by norm_num [scKJperKgK]
  have hp : PressureFromHS hsP3a [] 2000 4.4 = some 20000000 := by
    rw [PressureFromHS, if_pos hsc, PressureHS3a,
      if_neg (by push_neg; constructor <;> norm_num),
      if_neg (by push_neg; constructor <;> norm_num)]
    simp only [hsP3a, List.map_cons, List.map_nil, List.sum_cons, List.sum_nil]
    norm_num
  have hV : Vps hsPS Sub3.a 20000000 (4.4 : ℝ) = 4291 / 2500000 := by
    simp only [Vps, hsPS, evalSeries, List.map_cons, List.map_nil,
      List.sum_cons, List.sum_nil]
    norm_num
  have hT : Tps hsPS Sub3.a 20000000 (4.4 : ℝ) = 5643 / 25 := by
    simp only [Tps, hsPS, evalSeries, List.map_cons, List.map_nil,
      List.sum_cons, List.sum_nil]
    norm_num
  have hdT : (Tps hsPS Sub3.a 20000000 (4.4 + 1e-5) -
      Tps hsPS Sub3.a 20000000 (4.4 - 1e-5)) / (2 * 1e-5) = 1900 / 11 := by
    simp only [Tps, hsPS, evalSeries, List.map_cons, List.map_nil,
      List.sum_cons, List.sum_nil]
    norm_num
  have hdV : (Vps hsPS Sub3.a (20000000 + 1e3) (4.4 : ℝ) -
      Vps hsPS Sub3.a (20000000 - 1e3) (4.4 : ℝ)) / (2 * 1e3) =
      -(7 / 250000000000) := by
    simp only [Vps, hsPS, evalSeries, List.map_cons, List.map_nil,
      List.sum_cons, List.sum_nil]
    norm_num
  unfold PropertiesFromHS
  rw [hp]
  dsimp only
  rw [if_pos hsc, hV, hT, hdT, hdV]
  rw [if_neg (by norm_num), if_neg (by norm_num), if_neg (by norm_num)]
  rw [if_neg ?_]
  · simp only [Prod.mk.injEq, Option.some_inj, Properties.mk.injEq]
    refine ⟨by norm_num, by norm_num, by norm_num, by norm_num, by norm_num,
      by norm_num, by norm_num, by norm_num, ?_⟩
    norm_num
  · push_neg
    refine ⟨by norm_num, by norm_num, by norm_num, ?_⟩
    exact Real.sqrt_pos.mpr (by norm_num)

/-- Witness for C9 at the `hsP3a`/`hsPS` example: the returned pressure is
the 3a closed-form series value and the returned temperature is the 3a
backward (p,s) value at that pressure. -/
theorem claim_C9_witness :
    (20000000 : ℝ) = specPressure3a hsP3a 2000 4.4 ∧
      (5643 / 25 : ℝ) = Tps hsPS Sub3.a 20000000 4.4 := by
  have h := claim_C9_propertiesFromHS hsP3a [] hsPS 2000 4.4 20000000 (5643 / 25)
    ⟨4291 / 2500000, 2500000 / 4291, 245709 / 125, 4.4, 2000,
      3267 / 2500, 3267 / 2500, Real.sqrt (2630383 / 25)⟩ hsEval
  have hsc : (4.4 : ℝ) ≤ scKJperKgK := by norm_num [scKJperKgK]
  refine ⟨h.1 hsc, ?_⟩
  have h2 := h.2.2.1
  rw [if_pos hsc] at h2
  exact h2

end SteamProps
